import Mathlib

/-!
Cadence codec adapter (`src/audio/codec_adapter/codec/cadence.c`)

A shallow embedding of the Cadence codec adapter of SOF and theorems about it.

The C functions are state transformers over `comp_dev σ`, the component device
together with everything the functions reach through it: the codec instance
(`codec_data`), the component data (`comp_data`), the allocator bookkeeping
(`Heap`), the state `σ` of the vendor library and a log of the externally
visible events (capability calls, allocations, frees) in program order.

Everything that the translation unit uses but that is declared in a header or
another translation unit (the vendor entry points, the status classification
macro, the allocator, the size of the private record, the id extraction macro,
the memory-type constants) is collected in `Platform σ`, and all theorems hold
for every platform.

Machine integers: `int` values are `Int` and are wrapped by `int32` where the C
code stores into an `int`; `uint32_t` values are `Nat` and wrapped by `uint32`.
-/

namespace Cadence

/-! ## Machine integers and error numbers -/

/-- Addresses; `0` is the null pointer. -/
abbrev Ptr := Nat

/-- The null pointer. -/
def NULL : Ptr := 0

/-- Conversion to a 32-bit `int` (two's complement wrap). -/
def int32 (x : Int) : Int := (x + 2147483648) % 4294967296 - 2147483648

/-- Conversion to a `uint32_t`. -/
def uint32 (x : Int) : Nat := (x % 4294967296).toNat

/-- The errno value `ENOMEM`. -/
def ENOMEM : Int := 12

/-- The errno value `EINVAL`. -/
def EINVAL : Int := 22

/-- The errno value of an input/output error. -/
def EIO : Int := 5

/-- Modelled from the spec: `LIB_NO_ERROR` is defined in `cadence.h`, which is
not among the sources; it is the no-error sentinel of the status taxonomy. The
code itself treats it as `0`: `cadence_codec_prepare` compares the `return 0`
of `init_memory_tables` against it. -/
def LIB_NO_ERROR : Int := 0

/-! ## Capability registry -/

/-- The vendor entry points named in `cadence_api_table`. -/
inductive ApiFn where
  | cadence_api_function
  | xa_aac_dec
  | xa_bsac_dec
  | xa_dabplus_dec
  | xa_drm_dec
  | xa_mp3_dec
  | xa_sbc_dec
  deriving DecidableEq, Repr

/-- One row of `cadence_api_table`. -/
structure cadence_api where
  id : Nat
  api : ApiFn
  deriving DecidableEq, Repr

/-- The build switches that guard the rows of `cadence_api_table`. -/
structure Kconfig where
  CONFIG_CADENCE_CODEC_WRAPPER : Bool
  CONFIG_CADENCE_CODEC_AAC_DEC : Bool
  CONFIG_CADENCE_CODEC_BSAC_DEC : Bool
  CONFIG_CADENCE_CODEC_DAB_DEC : Bool
  CONFIG_CADENCE_CODEC_DRM_DEC : Bool
  CONFIG_CADENCE_CODEC_MP3_DEC : Bool
  CONFIG_CADENCE_CODEC_SBC_DEC : Bool
  deriving DecidableEq, Repr

/-- The table `cadence_api_table` as the preprocessor leaves it under `k`. -/
def cadence_api_table (k : Kconfig) : List cadence_api :=
  (if k.CONFIG_CADENCE_CODEC_WRAPPER then [⟨0x01, ApiFn.cadence_api_function⟩] else []) ++
  (if k.CONFIG_CADENCE_CODEC_AAC_DEC then [⟨0x02, ApiFn.xa_aac_dec⟩] else []) ++
  (if k.CONFIG_CADENCE_CODEC_BSAC_DEC then [⟨0x03, ApiFn.xa_bsac_dec⟩] else []) ++
  (if k.CONFIG_CADENCE_CODEC_DAB_DEC then [⟨0x04, ApiFn.xa_dabplus_dec⟩] else []) ++
  (if k.CONFIG_CADENCE_CODEC_DRM_DEC then [⟨0x05, ApiFn.xa_drm_dec⟩] else []) ++
  (if k.CONFIG_CADENCE_CODEC_MP3_DEC then [⟨0x06, ApiFn.xa_mp3_dec⟩] else []) ++
  (if k.CONFIG_CADENCE_CODEC_SBC_DEC then [⟨0x07, ApiFn.xa_sbc_dec⟩] else [])

/-- The lookup loop of `cadence_codec_init` (lines 89-94): the entry point of
the first row whose id equals `api_id`, or nothing (`cd->api` stays null). -/
def find_api : List cadence_api → Nat → Option ApiFn
  | [], _ => none
  | e :: rest, api_id => if e.id = api_id then some e.api else find_api rest api_id

/-! ## Capability calls -/

/-- The sub-commands of `XA_API_CMD_INIT` used by the adapter. -/
inductive InitType where
  | XA_CMD_TYPE_INIT_API_PRE_CONFIG_PARAMS
  | XA_CMD_TYPE_INIT_API_POST_CONFIG_PARAMS
  | XA_CMD_TYPE_INIT_PROCESS
  | XA_CMD_TYPE_INIT_DONE_QUERY
  deriving DecidableEq, Repr

/-- A capability call as the adapter issues it: the command, its index or
sub-command, and the value passed in through the pointer argument. -/
inductive ApiCmd where
  | XA_API_CMD_GET_LIB_ID_STRINGS
  | XA_API_CMD_GET_API_SIZE
  | XA_API_CMD_SET_CONFIG_PARAM (id : Nat) (value : List Int)
  | XA_API_CMD_INIT (t : InitType)
  | XA_API_CMD_GET_N_MEMTABS
  | XA_API_CMD_GET_MEM_INFO_TYPE (i : Int)
  | XA_API_CMD_GET_MEM_INFO_SIZE (i : Int)
  | XA_API_CMD_GET_MEM_INFO_ALIGNMENT (i : Int)
  | XA_API_CMD_SET_MEM_PTR (i : Int) (ptr : Ptr)
  | XA_API_CMD_GET_MEMTABS_SIZE
  | XA_API_CMD_SET_MEMTABS_PTR (ptr : Ptr)
  | XA_API_CMD_SET_INPUT_BYTES (avail : Nat)
  | XA_API_CMD_EXECUTE
  | XA_API_CMD_GET_OUTPUT_BYTES
  deriving DecidableEq, Repr

/-- What a capability call leaves behind: the status it returns and, for the
commands that report a value, the value held afterwards by the variable its
pointer argument refers to. -/
structure ApiResult where
  ret : Int
  out : Int
  deriving DecidableEq, Repr

/-- The externally visible events, logged in program order. -/
inductive Event where
  | call (fn : ApiFn) (self : Ptr) (cmd : ApiCmd)
  | alloc (size : Nat) (alignment : Nat) (ptr : Ptr)
  | free (ptr : Ptr)
  deriving DecidableEq, Repr

/-- The roles of a memory block, as told apart by the `switch` of
`init_memory_tables`; `other` is its `default` branch. -/
inductive MemType where
  | XA_MEMTYPE_SCRATCH
  | XA_MEMTYPE_PERSIST
  | XA_MEMTYPE_INPUT
  | XA_MEMTYPE_OUTPUT
  | other
  deriving DecidableEq, Repr

/-! ## Data model -/

/-- The private record `struct cadence_codec_data` (its `name` buffer is only
written by the vendor and never read by the adapter, and is left out). -/
structure cadence_codec_data where
  self : Ptr
  mem_tabs : Ptr
  api : Option ApiFn
  deriving DecidableEq, Repr

/-- One packed parameter `struct codec_param` as read at a cursor position:
its id, its self-describing size in bytes (unsigned, the stride to the next
parameter) and its payload. -/
structure codec_param where
  id : Nat
  size : Nat
  data : List Int
  deriving DecidableEq, Repr

/-- A configuration blob `struct codec_config`: the unsigned byte size, the
availability flag and the raw parameter bytes. `data off` is the parameter
that the memory at byte offset `off` from the start of the blob decodes to;
it is total because the walk reads wherever its cursor stands. -/
structure codec_config where
  size : Nat
  avail : Bool
  data : Nat → codec_param

/-- The lifecycle states of `enum codec_state`. -/
inductive codec_state where
  | CODEC_DISABLED
  | CODEC_INITIALIZED
  | CODEC_PREPARED
  | CODEC_RUNNING
  deriving DecidableEq, Repr

/-- The processing data `struct codec_processing_data`. -/
structure codec_processing_data where
  in_buff : Ptr
  in_buff_size : Nat
  out_buff : Ptr
  out_buff_size : Nat
  avail : Nat
  produced : Nat
  deriving DecidableEq, Repr

/-- The selector `enum codec_cfg_type`. -/
inductive codec_cfg_type where
  | CODEC_CFG_SETUP
  | CODEC_CFG_RUNTIME
  deriving DecidableEq, Repr

/-- The codec instance `struct codec_data`. `priv` is the field `private` and
`cd` is the record it points to. -/
structure codec_data where
  id : Nat
  state : codec_state
  priv : Ptr
  cd : cadence_codec_data
  s_cfg : codec_config
  r_cfg : codec_config
  cpd : codec_processing_data

/-- The frame formats of `enum sof_ipc_frame`. -/
inductive sof_ipc_frame where
  | SOF_IPC_FRAME_S16_LE
  | SOF_IPC_FRAME_S24_4LE
  | SOF_IPC_FRAME_S32_LE
  | SOF_IPC_FRAME_FLOAT
  deriving DecidableEq, Repr

/-- The fields of `struct sof_ipc_stream_params` the adapter reads. -/
structure sof_ipc_stream_params where
  frame_fmt : sof_ipc_frame
  rate : Nat
  channels : Nat
  deriving DecidableEq, Repr

/-- The fields of `struct ca_config` the adapter reads. -/
structure ca_config where
  sample_rate_id : Nat
  sample_width_id : Nat
  channels_id : Nat
  deriving DecidableEq, Repr

/-- The component data `struct comp_data`. -/
structure comp_data where
  ca_config : ca_config
  stream_params : sof_ipc_stream_params
  deriving DecidableEq, Repr

/-- Allocator bookkeeping: the blocks handed out by `codec_allocate_memory` and
not yet released, the number of blocks handed out so far, and the number of
requests made so far. -/
structure Heap where
  live : List Ptr
  count : Nat
  requests : Nat
  deriving DecidableEq, Repr

/-- The component device with everything reachable through it. -/
structure comp_dev (σ : Type) where
  codec : codec_data
  ca_data : comp_data
  heap : Heap
  vendor : σ
  log : List Event

/-- The parts of the firmware that `cadence.c` uses but does not define. -/
structure Platform (σ : Type) where
  /-- The build configuration. -/
  kconfig : Kconfig
  /-- The vendor libraries: entry point, codec object, command, library state. -/
  api : ApiFn → Ptr → ApiCmd → σ → ApiResult × σ
  /-- The macro `LIB_IS_FATAL_ERROR`. -/
  LIB_IS_FATAL_ERROR : Int → Bool
  /-- The no-error sentinel is not classified fatal. -/
  no_error_not_fatal : LIB_IS_FATAL_ERROR LIB_NO_ERROR = false
  /-- Whether a request for `size` bytes at `alignment` is served. -/
  alloc_ok : Heap → Nat → Nat → Bool
  /-- The value of `sizeof(struct cadence_codec_data)`. -/
  sizeof_cadence_codec_data : Nat
  /-- The macro `CODEC_GET_API_ID`. -/
  CODEC_GET_API_ID : Nat → Nat
  /-- The constant `XA_MEMTYPE_*` that an unsigned memory type equals, if any. -/
  memtype : Nat → MemType

variable {σ : Type}

/-! ## Allocator -/

/-- The bookkeeping after a served request: the new block has the address
`count + 1`, which no earlier block has. -/
def Heap.served (h : Heap) : Heap :=
  { live := h.live ++ [h.count + 1], count := h.count + 1, requests := h.requests + 1 }

/-- The bookkeeping after a refused request. -/
def Heap.refused (h : Heap) : Heap :=
  { h with requests := h.requests + 1 }

/-- Modelled from the spec: `codec_allocate_memory` lives in the generic codec
layer, which is not among the sources. A request either fails, returning the
null pointer, or hands out a block with a fresh non-null address that stays
live until it is released. -/
def codec_allocate_memory (P : Platform σ) (size alignment : Nat) (dev : comp_dev σ) :
    Ptr × comp_dev σ :=
  if P.alloc_ok dev.heap size alignment then
    (dev.heap.count + 1,
      { dev with heap := dev.heap.served,
                 log := dev.log ++ [Event.alloc size alignment (dev.heap.count + 1)] })
  else
    (NULL,
      { dev with heap := dev.heap.refused,
                 log := dev.log ++ [Event.alloc size alignment NULL] })

/-- Modelled from the spec: `codec_free_memory` lives in the generic codec
layer, which is not among the sources. It releases the block at `ptr`. -/
def codec_free_memory (ptr : Ptr) (dev : comp_dev σ) : comp_dev σ :=
  { dev with
    heap := { dev.heap with live := dev.heap.live.erase ptr },
    log := dev.log ++ [Event.free ptr] }

/-- The macro `API_CALL` through a known entry point `fn`: the call
`fn(cd->self, cmd, ...)` is logged and advances the library state. -/
def api_call (P : Platform σ) (fn : ApiFn) (cmd : ApiCmd) (dev : comp_dev σ) :
    ApiResult × comp_dev σ :=
  let r := P.api fn dev.codec.cd.self cmd dev.vendor
  (r.1, { dev with vendor := r.2, log := dev.log ++ [Event.call fn dev.codec.cd.self cmd] })

/-- The macro `API_CALL(cd, cmd, ...)`: a call through `cd->api`. Calling
through a null `cd->api` has no defined outcome (`none`). -/
def API_CALL (P : Platform σ) (cmd : ApiCmd) (dev : comp_dev σ) :
    Option (ApiResult × comp_dev σ) :=
  match dev.codec.cd.api with
  | none => none
  | some fn => some (api_call P fn cmd dev)

/-! ## `cadence_codec_init` -/

/-- The assignments `codec->private = cd; cd->self = NULL; cd->mem_tabs = NULL;
cd->api = NULL;` (lines 83-86). -/
def init_private (cd : Ptr) (dev : comp_dev σ) : comp_dev σ :=
  { dev with codec := { dev.codec with priv := cd, cd := ⟨NULL, NULL, none⟩ } }

/-- The assignment `cd->api = fn`. -/
def set_api (fn : ApiFn) (dev : comp_dev σ) : comp_dev σ :=
  { dev with codec := { dev.codec with cd := { dev.codec.cd with api := some fn } } }

/-- The assignment `cd->self = p`. -/
def set_self (p : Ptr) (dev : comp_dev σ) : comp_dev σ :=
  { dev with codec := { dev.codec with cd := { dev.codec.cd with self := p } } }

/-- The function `cadence_codec_init` (lines 65-134): the returned `int` and
the device afterwards. -/
def cadence_codec_init (P : Platform σ) (dev : comp_dev σ) : Int × comp_dev σ :=
  let api_id := P.CODEC_GET_API_ID dev.codec.id
  let a := codec_allocate_memory P P.sizeof_cadence_codec_data 0 dev
  let cd := a.1
  if cd = NULL then
    (- ENOMEM, a.2)
  else
    let dev1 := init_private cd a.2
    match find_api (cadence_api_table P.kconfig) api_id with
    | none => (- EINVAL, dev1)
    | some fn =>
      let dev2 := set_api fn dev1
      let n := api_call P fn ApiCmd.XA_API_CMD_GET_LIB_ID_STRINGS dev2
      if n.1.ret ≠ LIB_NO_ERROR then
        (n.1.ret, codec_free_memory cd n.2)
      else
        let s := api_call P fn ApiCmd.XA_API_CMD_GET_API_SIZE n.2
        if s.1.ret ≠ LIB_NO_ERROR then
          (s.1.ret, codec_free_memory cd s.2)
        else
          let obj_size := uint32 s.1.out
          let b := codec_allocate_memory P obj_size 0 s.2
          let dev3 := set_self b.1 b.2
          if b.1 = NULL then
            (s.1.ret, codec_free_memory cd dev3)
          else
            (s.1.ret, dev3)

/-! ## Outcomes of the functions that call through `cd->api` -/

/-- How a run of a function ends: it returns an `int`, it is still inside a
loop when the fuel of the model is used up, or it calls through a null
`cd->api`. -/
inductive Exit where
  | ret (r : Int)
  | hang
  | fault
  deriving DecidableEq, Repr

/-! ## `update_stream_params` -/

/-- The local `sample_width` of `update_stream_params` (line 145). -/
def sample_width (stream : sof_ipc_stream_params) : Int :=
  if stream.frame_fmt = sof_ipc_frame.SOF_IPC_FRAME_S16_LE then 0x10 else 0x20

/-- The function `update_stream_params` (lines 136-176). -/
def update_stream_params (P : Platform σ) (dev : comp_dev σ) : Exit × comp_dev σ :=
  let ca_config := dev.ca_data.ca_config
  let stream := dev.ca_data.stream_params
  match API_CALL P (ApiCmd.XA_API_CMD_SET_CONFIG_PARAM ca_config.sample_rate_id
      [(stream.rate : Int)]) dev with
  | none => (Exit.fault, dev)
  | some r1 =>
    if P.LIB_IS_FATAL_ERROR r1.1.ret then (Exit.ret r1.1.ret, r1.2)
    else
      match API_CALL P (ApiCmd.XA_API_CMD_SET_CONFIG_PARAM ca_config.sample_width_id
          [sample_width stream]) r1.2 with
      | none => (Exit.fault, r1.2)
      | some r2 =>
        if P.LIB_IS_FATAL_ERROR r2.1.ret then (Exit.ret r2.1.ret, r2.2)
        else
          match API_CALL P (ApiCmd.XA_API_CMD_SET_CONFIG_PARAM ca_config.channels_id
              [(stream.channels : Int)]) r2.2 with
          | none => (Exit.fault, r2.2)
          | some r3 => (Exit.ret r3.1.ret, r3.2)

/-! ## `apply_config` -/

/-- The `while (size > 0)` loop of `apply_config` (lines 206-222). `size` is
the `int` byte budget, `cursor` the offset of `data` from the start of the
blob; one unit of fuel is spent per iteration. -/
def apply_config_walk (P : Platform σ) (data : Nat → codec_param) :
    Nat → Int → Nat → comp_dev σ → Exit × comp_dev σ
  | 0, size, _, dev => if size > 0 then (Exit.hang, dev) else (Exit.ret 0, dev)
  | fuel + 1, size, cursor, dev =>
    if size > 0 then
      let param := data cursor
      match API_CALL P (ApiCmd.XA_API_CMD_SET_CONFIG_PARAM param.id param.data) dev with
      | none => (Exit.fault, dev)
      | some r =>
        if r.1.ret ≠ LIB_NO_ERROR ∧ P.LIB_IS_FATAL_ERROR r.1.ret = true then
          (Exit.ret r.1.ret, r.2)
        else
          apply_config_walk P data fuel (int32 (size - param.size)) (cursor + param.size) r.2
    else (Exit.ret 0, dev)

/-- The blob selected by `type` (lines 190-191). -/
def select_cfg (type : codec_cfg_type) (codec : codec_data) : codec_config :=
  match type with
  | codec_cfg_type.CODEC_CFG_SETUP => codec.s_cfg
  | codec_cfg_type.CODEC_CFG_RUNTIME => codec.r_cfg

/-- The function `apply_config` (lines 178-228). -/
def apply_config (P : Platform σ) (fuel : Nat) (type : codec_cfg_type) (dev : comp_dev σ) :
    Exit × comp_dev σ :=
  let cfg := select_cfg type dev.codec
  let size := int32 cfg.size
  if cfg.avail = false ∨ size = 0 then
    (Exit.ret (- EIO), dev)
  else
    apply_config_walk P cfg.data fuel size 0 dev

/-- The function `cadence_codec_apply_config` (lines 480-483). -/
def cadence_codec_apply_config (P : Platform σ) (fuel : Nat) (dev : comp_dev σ) :
    Exit × comp_dev σ :=
  apply_config P fuel codec_cfg_type.CODEC_CFG_RUNTIME dev

/-! ## `init_memory_tables` -/

/-- The locals `scratch` and `persistent` of `init_memory_tables`. -/
structure MemLocals where
  scratch : Ptr
  persistent : Ptr
  deriving DecidableEq, Repr

/-- The assignments of `case XA_MEMTYPE_INPUT` (lines 306-307). -/
def set_in_buff (p : Ptr) (size : Nat) (dev : comp_dev σ) : comp_dev σ :=
  { dev with codec := { dev.codec with
      cpd := { dev.codec.cpd with in_buff := p, in_buff_size := size } } }

/-- The assignments of `case XA_MEMTYPE_OUTPUT` (lines 310-311). -/
def set_out_buff (p : Ptr) (size : Nat) (dev : comp_dev σ) : comp_dev σ :=
  { dev with codec := { dev.codec with
      cpd := { dev.codec.cpd with out_buff := p, out_buff_size := size } } }

/-- The `for` loop of `init_memory_tables` (lines 258-322) with `n` iterations
left and loop counter `i`. The first component is `none` when the loop runs to
its end, and the way the loop is left otherwise: `Exit.ret r` stands for
`goto err` with `ret = r`. -/
def init_memory_tables_loop (P : Platform σ) :
    Nat → Int → MemLocals → comp_dev σ → Option Exit × MemLocals × comp_dev σ
  | 0, _, l, dev => (none, l, dev)
  | n + 1, i, l, dev =>
    match API_CALL P (ApiCmd.XA_API_CMD_GET_MEM_INFO_TYPE i) dev with
    | none => (some Exit.fault, l, dev)
    | some t =>
      if t.1.ret ≠ LIB_NO_ERROR then (some (Exit.ret t.1.ret), l, t.2)
      else
        let mem_type := int32 t.1.out
        match API_CALL P (ApiCmd.XA_API_CMD_GET_MEM_INFO_SIZE i) t.2 with
        | none => (some Exit.fault, l, t.2)
        | some sz =>
          if sz.1.ret ≠ LIB_NO_ERROR then (some (Exit.ret sz.1.ret), l, sz.2)
          else
            let mem_size := int32 sz.1.out
            match API_CALL P (ApiCmd.XA_API_CMD_GET_MEM_INFO_ALIGNMENT i) sz.2 with
            | none => (some Exit.fault, l, sz.2)
            | some al =>
              if al.1.ret ≠ LIB_NO_ERROR then (some (Exit.ret al.1.ret), l, al.2)
              else
                let mem_alignment := int32 al.1.out
                let a := codec_allocate_memory P (uint32 mem_size) (uint32 mem_alignment) al.2
                let ptr := a.1
                if ptr = NULL then (some (Exit.ret (- EINVAL)), l, a.2)
                else
                  match API_CALL P (ApiCmd.XA_API_CMD_SET_MEM_PTR i ptr) a.2 with
                  | none => (some Exit.fault, l, a.2)
                  | some sp =>
                    if sp.1.ret ≠ LIB_NO_ERROR then (some (Exit.ret sp.1.ret), l, sp.2)
                    else
                      match P.memtype (uint32 mem_type) with
                      | MemType.XA_MEMTYPE_SCRATCH =>
                        init_memory_tables_loop P n (i + 1) { l with scratch := ptr } sp.2
                      | MemType.XA_MEMTYPE_PERSIST =>
                        init_memory_tables_loop P n (i + 1) { l with persistent := ptr } sp.2
                      | MemType.XA_MEMTYPE_INPUT =>
                        init_memory_tables_loop P n (i + 1) l
                          (set_in_buff ptr (uint32 mem_size) sp.2)
                      | MemType.XA_MEMTYPE_OUTPUT =>
                        init_memory_tables_loop P n (i + 1) l
                          (set_out_buff ptr (uint32 mem_size) sp.2)
                      | MemType.other => (some (Exit.ret (- EINVAL)), l, sp.2)

/-- The block after the label `err` of `init_memory_tables` (lines 325-334). -/
def init_memory_tables_err (ret : Int) (l : MemLocals) (dev : comp_dev σ) :
    Exit × comp_dev σ :=
  let d1 := if l.scratch ≠ NULL then codec_free_memory l.scratch dev else dev
  let d2 := if l.persistent ≠ NULL then codec_free_memory l.persistent d1 else d1
  let d3 := if d2.codec.cpd.in_buff ≠ NULL then codec_free_memory d2.codec.cpd.in_buff d2 else d2
  let d4 := if d3.codec.cpd.out_buff ≠ NULL then codec_free_memory d3.codec.cpd.out_buff d3 else d3
  (Exit.ret ret, d4)

/-- The function `init_memory_tables` (lines 230-335). -/
def init_memory_tables (P : Platform σ) (dev : comp_dev σ) : Exit × comp_dev σ :=
  let l0 : MemLocals := ⟨NULL, NULL⟩
  match API_CALL P (ApiCmd.XA_API_CMD_INIT InitType.XA_CMD_TYPE_INIT_API_POST_CONFIG_PARAMS)
      dev with
  | none => (Exit.fault, dev)
  | some r =>
    if r.1.ret ≠ LIB_NO_ERROR then init_memory_tables_err r.1.ret l0 r.2
    else
      match API_CALL P ApiCmd.XA_API_CMD_GET_N_MEMTABS r.2 with
      | none => (Exit.fault, r.2)
      | some c =>
        if c.1.ret ≠ LIB_NO_ERROR then init_memory_tables_err c.1.ret l0 c.2
        else
          let no_mem_tables := int32 c.1.out
          let w := init_memory_tables_loop P no_mem_tables.toNat 0 l0 c.2
          match w.1 with
          | none => (Exit.ret 0, w.2.2)
          | some (Exit.ret e) => init_memory_tables_err e w.2.1 w.2.2
          | some x => (x, w.2.2)

/-! ## Concrete platforms and devices used to exercise the theorems -/

/-- Every codec of the table is built in. -/
def kconfig_all : Kconfig := ⟨true, true, true, true, true, true, true⟩

/-- A platform over a vendor library whose state is a call counter. Statuses
with the sign bit set are fatal, ids are the low byte of the codec id, and the
memory types are numbered persist, scratch, input, output. -/
def test_platform (api : ApiFn → Ptr → ApiCmd → Nat → ApiResult × Nat)
    (alloc_ok : Heap → Nat → Nat → Bool) : Platform Nat where
  kconfig := kconfig_all
  api := api
  LIB_IS_FATAL_ERROR := fun e => decide (e < 0)
  no_error_not_fatal := by decide
  alloc_ok := alloc_ok
  sizeof_cadence_codec_data := 48
  CODEC_GET_API_ID := fun id => id % 256
  memtype := fun t =>
    match t with
    | 0 => MemType.XA_MEMTYPE_PERSIST
    | 1 => MemType.XA_MEMTYPE_SCRATCH
    | 2 => MemType.XA_MEMTYPE_INPUT
    | 3 => MemType.XA_MEMTYPE_OUTPUT
    | _ => MemType.other

/-- A blob that is not available. -/
def no_cfg : codec_config := ⟨0, false, fun _ => ⟨0, 0, []⟩⟩

/-- A device before `cadence_codec_init`, with codec id `id` and the two
configuration blobs `s` and `r`. -/
def test_dev (id : Nat) (s r : codec_config) : comp_dev Nat where
  codec :=
    { id := id, state := codec_state.CODEC_DISABLED, priv := NULL,
      cd := ⟨NULL, NULL, none⟩, s_cfg := s, r_cfg := r,
      cpd := ⟨NULL, 0, NULL, 0, 0, 0⟩ }
  ca_data := ⟨⟨1, 2, 3⟩, ⟨sof_ipc_frame.SOF_IPC_FRAME_S16_LE, 48000, 2⟩⟩
  heap := ⟨[], 0, 0⟩
  vendor := 0
  log := []

/-- A vendor library that counts its calls and answers each with status 0 and
the value 64. -/
def api_ok : ApiFn → Ptr → ApiCmd → Nat → ApiResult × Nat :=
  fun _ _ _ n => (⟨0, 64⟩, n + 1)

/-- A platform on which only the first allocation request is served. -/
def platform_one_block : Platform Nat :=
  test_platform api_ok (fun h _ _ => decide (h.requests = 0))

/-! ## `cadence_codec_prepare` -/

/-- The assignment `codec->s_cfg.avail = b`. -/
def set_s_cfg_avail (b : Bool) (dev : comp_dev σ) : comp_dev σ :=
  { dev with codec := { dev.codec with s_cfg := { dev.codec.s_cfg with avail := b } } }

/-- The assignment `cd->mem_tabs = p`. -/
def set_mem_tabs (p : Ptr) (dev : comp_dev σ) : comp_dev σ :=
  { dev with codec := { dev.codec with cd := { dev.codec.cd with mem_tabs := p } } }

/-- The exit of `cadence_codec_prepare` through the label `free` with
`ret = r` (lines 437-441). -/
def prepare_free (r : Int) (dev : comp_dev σ) : Exit × comp_dev σ :=
  (Exit.ret r, codec_free_memory dev.codec.cd.mem_tabs dev)

/-- The second half of `cadence_codec_prepare`, from the query of the
memory-table size to the end (lines 382-436). -/
def prepare_memory (P : Platform σ) (dev : comp_dev σ) : Exit × comp_dev σ :=
  match API_CALL P ApiCmd.XA_API_CMD_GET_MEMTABS_SIZE dev with
  | none => (Exit.fault, dev)
  | some m =>
    if m.1.ret ≠ LIB_NO_ERROR then (Exit.ret m.1.ret, m.2)
    else
      let mem_tabs_size := int32 m.1.out
      let a := codec_allocate_memory P (uint32 mem_tabs_size) 4 m.2
      let d := set_mem_tabs a.1 a.2
      if a.1 = NULL then (Exit.ret (- ENOMEM), d)
      else
        match API_CALL P (ApiCmd.XA_API_CMD_SET_MEMTABS_PTR a.1) d with
        | none => (Exit.fault, d)
        | some sp =>
          if sp.1.ret ≠ LIB_NO_ERROR then prepare_free sp.1.ret sp.2
          else
            let t := init_memory_tables P sp.2
            match t.1 with
            | Exit.ret r =>
              if r ≠ LIB_NO_ERROR then prepare_free r t.2
              else
                match API_CALL P (ApiCmd.XA_API_CMD_INIT InitType.XA_CMD_TYPE_INIT_PROCESS)
                    t.2 with
                | none => (Exit.fault, t.2)
                | some ip =>
                  if ip.1.ret ≠ LIB_NO_ERROR then prepare_free ip.1.ret ip.2
                  else
                    match API_CALL P
                        (ApiCmd.XA_API_CMD_INIT InitType.XA_CMD_TYPE_INIT_DONE_QUERY) ip.2 with
                    | none => (Exit.fault, ip.2)
                    | some q =>
                      if q.1.ret ≠ LIB_NO_ERROR then prepare_free q.1.ret q.2
                      else if int32 q.1.out = 0 then prepare_free (- EINVAL) q.2
                      else (Exit.ret 0, q.2)
            | x => (x, t.2)

/-- The function `cadence_codec_prepare` (lines 337-442); `fuel` bounds the
loop of `apply_config`. -/
def cadence_codec_prepare (P : Platform σ) (fuel : Nat) (dev : comp_dev σ) :
    Exit × comp_dev σ :=
  if dev.codec.state = codec_state.CODEC_PREPARED then (Exit.ret 0, dev)
  else
    match API_CALL P (ApiCmd.XA_API_CMD_INIT InitType.XA_CMD_TYPE_INIT_API_PRE_CONFIG_PARAMS)
        dev with
    | none => (Exit.fault, dev)
    | some r =>
      if r.1.ret ≠ LIB_NO_ERROR then (Exit.ret r.1.ret, r.2)
      else if r.2.codec.s_cfg.avail = false ∧ r.2.codec.s_cfg.size = 0 then
        (Exit.ret (- EIO), r.2)
      else
        let d1 := if r.2.codec.s_cfg.avail = false then set_s_cfg_avail true r.2 else r.2
        let c := apply_config P fuel codec_cfg_type.CODEC_CFG_SETUP d1
        match c.1 with
        | Exit.ret rc =>
          if rc ≠ 0 then (Exit.ret rc, c.2)
          else
            let u := update_stream_params P (set_s_cfg_avail false c.2)
            match u.1 with
            | Exit.ret ru =>
              if ru ≠ 0 then (Exit.ret ru, u.2)
              else prepare_memory P u.2
            | x => (x, u.2)
        | x => (x, c.2)

/-! ## `cadence_codec_process`, `cadence_codec_reset`, `cadence_codec_free` -/

/-- The store into `codec->cpd.produced` through the pointer passed with
`XA_API_CMD_GET_OUTPUT_BYTES`. -/
def set_produced (n : Nat) (dev : comp_dev σ) : comp_dev σ :=
  { dev with codec := { dev.codec with cpd := { dev.codec.cpd with produced := n } } }

/-- The function `cadence_codec_process` (lines 444-478). -/
def cadence_codec_process (P : Platform σ) (dev : comp_dev σ) : Exit × comp_dev σ :=
  match API_CALL P (ApiCmd.XA_API_CMD_SET_INPUT_BYTES dev.codec.cpd.avail) dev with
  | none => (Exit.fault, dev)
  | some a =>
    if a.1.ret ≠ LIB_NO_ERROR then (Exit.ret a.1.ret, a.2)
    else
      match API_CALL P ApiCmd.XA_API_CMD_EXECUTE a.2 with
      | none => (Exit.fault, a.2)
      | some e =>
        if e.1.ret ≠ LIB_NO_ERROR then (Exit.ret e.1.ret, e.2)
        else
          match API_CALL P ApiCmd.XA_API_CMD_GET_OUTPUT_BYTES e.2 with
          | none => (Exit.fault, e.2)
          | some g =>
            if g.1.ret ≠ LIB_NO_ERROR then (Exit.ret g.1.ret, set_produced (uint32 g.1.out) g.2)
            else (Exit.ret 0, set_produced (uint32 g.1.out) g.2)

/-- The function `cadence_codec_free` (lines 502-506). -/
def cadence_codec_free (dev : comp_dev σ) : Int × comp_dev σ :=
  (0, dev)

/-! ## Vocabulary for statements about `apply_config` -/

/-- The memory read through `data` holds the parameters `ps` packed one after
the other from byte offset `off`: each begins where the one before it ends. -/
def packed_at (data : Nat → codec_param) : Nat → List codec_param → Prop
  | _, [] => True
  | off, p :: ps => data off = p ∧ packed_at data (off + p.size) ps

/-- The sum of the declared sizes of `ps`. -/
def total_size (ps : List codec_param) : Nat :=
  (ps.map codec_param.size).sum

/-- The set-config-parameter command that carries the id and the payload of `p`. -/
def set_param_cmd (p : codec_param) : ApiCmd :=
  ApiCmd.XA_API_CMD_SET_CONFIG_PARAM p.id p.data

/-- One set-config-parameter call event per parameter of `ps`, in list order. -/
def param_calls (fn : ApiFn) (self : Ptr) (ps : List codec_param) : List Event :=
  ps.map (fun p => Event.call fn self (set_param_cmd p))

/-- The statuses returned when set-config-parameter is invoked for each
parameter of `ps` in order, starting from library state `v`, and the library
state afterwards. -/
def push_params (P : Platform σ) (fn : ApiFn) (self : Ptr) :
    List codec_param → σ → List Int × σ
  | [], v => ([], v)
  | p :: ps, v =>
    let r := P.api fn self (set_param_cmd p) v
    let t := push_params P fn self ps r.2
    (r.1.ret :: t.1, t.2)

/-- The device after set-config-parameter has been invoked through `fn` for
each parameter of `ps` in order: only the library state and the log differ. -/
def after_params (P : Platform σ) (fn : ApiFn) (ps : List codec_param) (dev : comp_dev σ) :
    comp_dev σ :=
  { dev with vendor := (push_params P fn dev.codec.cd.self ps dev.vendor).2,
             log := dev.log ++ param_calls fn dev.codec.cd.self ps }

/-- A device after a successful `cadence_codec_init` for codec id `0x06`
(private record at address 1, codec object at address 2), with the two
configuration blobs `s` and `r`. -/
def ready_dev (s r : codec_config) : comp_dev Nat where
  codec :=
    { id := 0x06, state := codec_state.CODEC_INITIALIZED, priv := 1,
      cd := ⟨2, NULL, some ApiFn.xa_mp3_dec⟩, s_cfg := s, r_cfg := r,
      cpd := ⟨NULL, 0, NULL, 0, 0, 0⟩ }
  ca_data := ⟨⟨1, 2, 3⟩, ⟨sof_ipc_frame.SOF_IPC_FRAME_S16_LE, 48000, 2⟩⟩
  heap := ⟨[1, 2], 2, 2⟩
  vendor := 0
  log := []

/-- A platform that serves every allocation request, over the library `api_ok`. -/
def platform_ok : Platform Nat :=
  test_platform api_ok (fun _ _ _ => true)

/-- A blob of 16 bytes holding two parameters of 8 bytes each. -/
def cfg_two : codec_config :=
  ⟨16, true, fun off => if off = 0 then ⟨10, 8, [1]⟩ else if off = 8 then ⟨11, 8, [2]⟩
    else ⟨0, 0, []⟩⟩

/-- An available blob of size 0, which holds the empty list of parameters. -/
def cfg_empty : codec_config := ⟨0, true, fun _ => ⟨0, 0, []⟩⟩

/-- An available blob of `2^31` bytes holding one parameter of that size. -/
def cfg_huge : codec_config := ⟨2147483648, true, fun _ => ⟨10, 2147483648, [1]⟩⟩

/-- An available blob of 8 bytes whose memory decodes everywhere to a
parameter of declared size 0. -/
def cfg_zero : codec_config := ⟨8, true, fun _ => ⟨7, 0, [1]⟩⟩

/-- An available blob of 8 bytes whose first parameter declares 16 bytes. -/
def cfg_over : codec_config := ⟨8, true, fun _ => ⟨9, 16, [1]⟩⟩

/-- A vendor library that answers its second call with the fatal status
`-1` and every other call with status 0. -/
def api_second_fatal : ApiFn → Ptr → ApiCmd → Nat → ApiResult × Nat :=
  fun _ _ _ n => (⟨if n = 1 then -1 else 0, 0⟩, n + 1)

/-- A blob of 24 bytes holding three parameters of 8 bytes each. -/
def cfg_three : codec_config :=
  ⟨24, true, fun off => if off = 0 then ⟨10, 8, [1]⟩ else if off = 8 then ⟨11, 8, [2]⟩
    else if off = 16 then ⟨12, 8, [3]⟩ else ⟨0, 0, []⟩⟩

/-- A vendor library for memory negotiation: it reports `types.length` memory
tables, the memory type `types[i]` for table `i`, 256 bytes at alignment 8 for
every table, and answers set-memory-pointer for the table `bad_ptr` with the
status `-7` and every other call with status 0. -/
def api_tables (types : List Int) (bad_ptr : Option Int) :
    ApiFn → Ptr → ApiCmd → Nat → ApiResult × Nat
  | _, _, ApiCmd.XA_API_CMD_GET_N_MEMTABS, n => (⟨0, (types.length : Int)⟩, n + 1)
  | _, _, ApiCmd.XA_API_CMD_GET_MEM_INFO_TYPE i, n => (⟨0, types.getD i.toNat 99⟩, n + 1)
  | _, _, ApiCmd.XA_API_CMD_GET_MEM_INFO_SIZE _, n => (⟨0, 256⟩, n + 1)
  | _, _, ApiCmd.XA_API_CMD_GET_MEM_INFO_ALIGNMENT _, n => (⟨0, 8⟩, n + 1)
  | _, _, ApiCmd.XA_API_CMD_SET_MEM_PTR i _, n =>
    (⟨if bad_ptr = some i then -7 else 0, 0⟩, n + 1)
  | _, _, _, n => (⟨0, 64⟩, n + 1)

/-- A vendor library whose post-config init command fails with status `-9`. -/
def api_init_fails : ApiFn → Ptr → ApiCmd → Nat → ApiResult × Nat :=
  fun _ _ _ n => (⟨-9, 0⟩, n + 1)

/-- The device `ready_dev` with an input buffer at address 40 and an output
buffer at address 41 recorded on the instance by an earlier negotiation, both
still live. -/
def bound_dev : comp_dev Nat :=
  { ready_dev no_cfg no_cfg with
    codec := { (ready_dev no_cfg no_cfg).codec with cpd := ⟨40, 256, 41, 256, 0, 0⟩ },
    heap := ⟨[1, 2, 40, 41], 41, 41⟩ }

/-- A platform whose library reports four memory tables with the roles
scratch, scratch, input, output, and whose allocator refuses the request made
for table 2 (the fifth request on `ready_dev`). -/
def platform_third_block_fails : Platform Nat :=
  test_platform (api_tables [1, 1, 2, 3] none) (fun h _ _ => decide (h.requests ≠ 4))

/-! ## Vocabulary for statements about `cadence_codec_process` -/

/-- The answer of the library to the set-input-bytes call of
`cadence_codec_process` on `dev`, and the library state after it. -/
def answer_set_input (P : Platform σ) (fn : ApiFn) (dev : comp_dev σ) : ApiResult × σ :=
  P.api fn dev.codec.cd.self (ApiCmd.XA_API_CMD_SET_INPUT_BYTES dev.codec.cpd.avail) dev.vendor

/-- The answer of the library to the execute call that follows. -/
def answer_execute (P : Platform σ) (fn : ApiFn) (dev : comp_dev σ) : ApiResult × σ :=
  P.api fn dev.codec.cd.self ApiCmd.XA_API_CMD_EXECUTE (answer_set_input P fn dev).2

/-- The answer of the library to the get-output-bytes call that follows. -/
def answer_get_output (P : Platform σ) (fn : ApiFn) (dev : comp_dev σ) : ApiResult × σ :=
  P.api fn dev.codec.cd.self ApiCmd.XA_API_CMD_GET_OUTPUT_BYTES (answer_execute P fn dev).2

/-- A vendor library that reports no memory tables: status 0 and value 0 for
every call. -/
def api_no_tables : ApiFn → Ptr → ApiCmd → Nat → ApiResult × Nat :=
  fun _ _ _ n => (⟨0, 0⟩, n + 1)

/-- The device `ready_dev` with 480 input bytes available. -/
def running_dev : comp_dev Nat :=
  { ready_dev no_cfg no_cfg with
    codec := { (ready_dev no_cfg no_cfg).codec with cpd := ⟨40, 512, 41, 512, 480, 0⟩ } }

/-- The device `bound_dev` in the lifecycle state PREPARED, with a fresh setup
blob. -/
def prepared_dev : comp_dev Nat :=
  { bound_dev with
    codec := { bound_dev.codec with state := codec_state.CODEC_PREPARED, s_cfg := cfg_two } }

/-! ## Vocabulary for statements about `update_stream_params` -/

/-- The sample-width code as the specification words it: `0x10` for the 16-bit
format and `0x20` for every wider format. -/
def spec_width_code : sof_ipc_frame → Int
  | sof_ipc_frame.SOF_IPC_FRAME_S16_LE => 0x10
  | sof_ipc_frame.SOF_IPC_FRAME_S24_4LE => 0x20
  | sof_ipc_frame.SOF_IPC_FRAME_S32_LE => 0x20
  | sof_ipc_frame.SOF_IPC_FRAME_FLOAT => 0x20

/-- The push of the sample rate: the sample-rate id with the rate of the stream. -/
def push_rate_cmd (dev : comp_dev σ) : ApiCmd :=
  ApiCmd.XA_API_CMD_SET_CONFIG_PARAM dev.ca_data.ca_config.sample_rate_id
    [(dev.ca_data.stream_params.rate : Int)]

/-- The push of the sample width: the sample-width id with the width code `code`. -/
def push_width_cmd (dev : comp_dev σ) (code : Int) : ApiCmd :=
  ApiCmd.XA_API_CMD_SET_CONFIG_PARAM dev.ca_data.ca_config.sample_width_id [code]

/-- The push of the channel count: the channel-count id with the channel count
of the stream. -/
def push_channels_cmd (dev : comp_dev σ) : ApiCmd :=
  ApiCmd.XA_API_CMD_SET_CONFIG_PARAM dev.ca_data.ca_config.channels_id
    [(dev.ca_data.stream_params.channels : Int)]

/-- The answer of the library to the push of the sample rate. -/
def answer_rate (P : Platform σ) (fn : ApiFn) (dev : comp_dev σ) : ApiResult × σ :=
  P.api fn dev.codec.cd.self (push_rate_cmd dev) dev.vendor

/-- The answer of the library to the push of the sample width that follows. -/
def answer_width (P : Platform σ) (fn : ApiFn) (dev : comp_dev σ) : ApiResult × σ :=
  P.api fn dev.codec.cd.self (push_width_cmd dev (sample_width dev.ca_data.stream_params))
    (answer_rate P fn dev).2

/-- The answer of the library to the push of the channel count that follows. -/
def answer_channels (P : Platform σ) (fn : ApiFn) (dev : comp_dev σ) : ApiResult × σ :=
  P.api fn dev.codec.cd.self (push_channels_cmd dev) (answer_width P fn dev).2

/-- A vendor library that answers the set-config-parameter call for id 3 (the
channel-count id of the test devices) with the recoverable status 5 and every
other call with status 0 and the value 64. -/
def api_channels_recoverable : ApiFn → Ptr → ApiCmd → Nat → ApiResult × Nat
  | _, _, ApiCmd.XA_API_CMD_SET_CONFIG_PARAM 3 _, n => (⟨5, 0⟩, n + 1)
  | _, _, _, n => (⟨0, 64⟩, n + 1)

/-- A vendor library that answers the set-config-parameter call for id 2 (the
sample-width id of the test devices) with the fatal status `-4` and every
other call with status 0 and the value 64. -/
def api_width_fatal : ApiFn → Ptr → ApiCmd → Nat → ApiResult × Nat
  | _, _, ApiCmd.XA_API_CMD_SET_CONFIG_PARAM 2 _, n => (⟨-4, 0⟩, n + 1)
  | _, _, _, n => (⟨0, 64⟩, n + 1)

/-- The device `ready_dev` with a 24-bit stream of 44100 Hz and 6 channels. -/
def dev_s24 : comp_dev Nat :=
  { ready_dev cfg_two no_cfg with
    ca_data := ⟨⟨1, 2, 3⟩, ⟨sof_ipc_frame.SOF_IPC_FRAME_S24_4LE, 44100, 6⟩⟩ }

/-- A vendor library that negotiates the memory tables `types` like
`api_tables` and then fails the process-init command with status `-3`. -/
def api_process_fails (types : List Int) : ApiFn → Ptr → ApiCmd → Nat → ApiResult × Nat
  | _, _, ApiCmd.XA_API_CMD_INIT InitType.XA_CMD_TYPE_INIT_PROCESS, n => (⟨-3, 0⟩, n + 1)
  | fn, self, cmd, n => api_tables types none fn self cmd n

/-- A vendor library that negotiates the memory tables `types` like
`api_tables` and then answers the init-done query with no-error and the value
0: the library reports that it is not initialised. -/
def api_not_ready (types : List Int) : ApiFn → Ptr → ApiCmd → Nat → ApiResult × Nat
  | _, _, ApiCmd.XA_API_CMD_INIT InitType.XA_CMD_TYPE_INIT_DONE_QUERY, n => (⟨0, 0⟩, n + 1)
  | fn, self, cmd, n => api_tables types none fn self cmd n

/-- The events of a log that are not capability calls: allocations and frees. -/
def memory_events (log : List Event) : List Event :=
  log.filter (fun e => match e with
    | Event.call _ _ _ => false
    | _ => true)

/-! ## Vocabulary for statements about `cadence_codec_prepare` -/

/-- The part of `cadence_codec_prepare` from the application of the setup blob
to the end (lines 364-436), run on the device `d1` that the first part leaves. -/
def prepare_from_config (P : Platform σ) (fuel : Nat) (d1 : comp_dev σ) :
    Exit × comp_dev σ :=
  let c := apply_config P fuel codec_cfg_type.CODEC_CFG_SETUP d1
  match c.1 with
  | Exit.ret rc =>
    if rc ≠ 0 then (Exit.ret rc, c.2)
    else
      let u := update_stream_params P (set_s_cfg_avail false c.2)
      match u.1 with
      | Exit.ret ru =>
        if ru ≠ 0 then (Exit.ret ru, u.2)
        else prepare_memory P u.2
      | x => (x, u.2)
  | x => (x, c.2)

/-- The pre-config init command, the first call of `cadence_codec_prepare`. -/
def pre_config_cmd : ApiCmd :=
  ApiCmd.XA_API_CMD_INIT InitType.XA_CMD_TYPE_INIT_API_PRE_CONFIG_PARAMS

/-! ## Vocabulary for statements about a successful memory negotiation -/

/-- One row of the table of memory blocks that a library reports: the values
it writes for the type, the size and the alignment queries. -/
structure MemTab where
  mem_type : Int
  size : Int
  alignment : Int
  deriving DecidableEq, Repr

/-- The role that `init_memory_tables` reads from a row. -/
def role_of (P : Platform σ) (t : MemTab) : MemType :=
  P.memtype (uint32 (int32 t.mem_type))

/-- The size in bytes that `init_memory_tables` requests for a row. -/
def size_of (t : MemTab) : Nat := uint32 (int32 t.size)

/-- The events of the negotiation of the block with index `i` and row `t`
that is allocated at address `p`: the queries of role, size and alignment, the
allocation with the reported size and alignment, and set-memory-pointer. -/
def block_events (fn : ApiFn) (self : Ptr) (i : Int) (t : MemTab) (p : Ptr) : List Event :=
  [Event.call fn self (ApiCmd.XA_API_CMD_GET_MEM_INFO_TYPE i),
   Event.call fn self (ApiCmd.XA_API_CMD_GET_MEM_INFO_SIZE i),
   Event.call fn self (ApiCmd.XA_API_CMD_GET_MEM_INFO_ALIGNMENT i),
   Event.alloc (size_of t) (uint32 (int32 t.alignment)) p,
   Event.call fn self (ApiCmd.XA_API_CMD_SET_MEM_PTR i p)]

/-- The events of the negotiation of the rows `ts`, the first of which has
index `i`, in ascending order of the index, when `count` blocks have been
handed out before: the block of each row gets the next address. -/
def table_events (fn : ApiFn) (self : Ptr) : List MemTab → Int → Nat → List Event
  | [], _, _ => []
  | t :: ts, i, count =>
    block_events fn self i t (count + 1) ++ table_events fn self ts (i + 1) (count + 1)

/-- The buffer (pointer and size) bound to `role` after the rows `ts` have
been negotiated, when `count` blocks have been handed out before and `b` was
bound before: each row of that role replaces the binding. -/
def bound_buffer (P : Platform σ) (role : MemType) : List MemTab → Nat → Ptr × Nat → Ptr × Nat
  | [], _, b => b
  | t :: ts, count, b =>
    bound_buffer P role ts (count + 1) (if role_of P t = role then (count + 1, size_of t) else b)

/-- The device after the block with index `i` and row `t` has been negotiated:
the three queries, the allocation and set-memory-pointer. -/
def after_block (P : Platform σ) (fn : ApiFn) (i : Int) (t : MemTab) (dev : comp_dev σ) :
    comp_dev σ :=
  (api_call P fn (ApiCmd.XA_API_CMD_SET_MEM_PTR i (dev.heap.count + 1))
    (codec_allocate_memory P (size_of t) (uint32 (int32 t.alignment))
      (api_call P fn (ApiCmd.XA_API_CMD_GET_MEM_INFO_ALIGNMENT i)
        (api_call P fn (ApiCmd.XA_API_CMD_GET_MEM_INFO_SIZE i)
          (api_call P fn (ApiCmd.XA_API_CMD_GET_MEM_INFO_TYPE i) dev).2).2).2).2).2

/-- The row that the library reports for the block with index `i` when the
role, size and alignment queries are issued in this order from `dev`. -/
def row_at (P : Platform σ) (fn : ApiFn) (i : Int) (dev : comp_dev σ) : MemTab :=
  ⟨(api_call P fn (ApiCmd.XA_API_CMD_GET_MEM_INFO_TYPE i) dev).1.out,
   (api_call P fn (ApiCmd.XA_API_CMD_GET_MEM_INFO_SIZE i)
      (api_call P fn (ApiCmd.XA_API_CMD_GET_MEM_INFO_TYPE i) dev).2).1.out,
   (api_call P fn (ApiCmd.XA_API_CMD_GET_MEM_INFO_ALIGNMENT i)
      (api_call P fn (ApiCmd.XA_API_CMD_GET_MEM_INFO_SIZE i)
        (api_call P fn (ApiCmd.XA_API_CMD_GET_MEM_INFO_TYPE i) dev).2).2).1.out⟩

/-- The negotiation of the block with index `i` succeeds when started from
`dev`: the three queries issued from `dev` return no-error, the request for
the reported size and alignment is served by the heap as it then is, the
set-memory-pointer call that follows returns no-error, and the reported role
is a recognized one. Only the calls of this run are constrained. -/
def block_ok (P : Platform σ) (fn : ApiFn) (i : Int) (dev : comp_dev σ) : Prop :=
  (api_call P fn (ApiCmd.XA_API_CMD_GET_MEM_INFO_TYPE i) dev).1.ret = LIB_NO_ERROR ∧
  (api_call P fn (ApiCmd.XA_API_CMD_GET_MEM_INFO_SIZE i)
    (api_call P fn (ApiCmd.XA_API_CMD_GET_MEM_INFO_TYPE i) dev).2).1.ret = LIB_NO_ERROR ∧
  (api_call P fn (ApiCmd.XA_API_CMD_GET_MEM_INFO_ALIGNMENT i)
    (api_call P fn (ApiCmd.XA_API_CMD_GET_MEM_INFO_SIZE i)
      (api_call P fn (ApiCmd.XA_API_CMD_GET_MEM_INFO_TYPE i) dev).2).2).1.ret = LIB_NO_ERROR ∧
  P.alloc_ok dev.heap (size_of (row_at P fn i dev))
    (uint32 (int32 (row_at P fn i dev).alignment)) = true ∧
  (api_call P fn (ApiCmd.XA_API_CMD_SET_MEM_PTR i (dev.heap.count + 1))
    (codec_allocate_memory P (size_of (row_at P fn i dev))
      (uint32 (int32 (row_at P fn i dev).alignment))
      (api_call P fn (ApiCmd.XA_API_CMD_GET_MEM_INFO_ALIGNMENT i)
        (api_call P fn (ApiCmd.XA_API_CMD_GET_MEM_INFO_SIZE i)
          (api_call P fn (ApiCmd.XA_API_CMD_GET_MEM_INFO_TYPE i) dev).2).2).2).2).1.ret
    = LIB_NO_ERROR ∧
  role_of P (row_at P fn i dev) ≠ MemType.other

/-- The device after the block with index `i` has been negotiated from `dev`
and recorded under its role: an input or output block is stored on the
instance with its size. -/
def block_next (P : Platform σ) (fn : ApiFn) (i : Int) (dev : comp_dev σ) : comp_dev σ :=
  match role_of P (row_at P fn i dev) with
  | MemType.XA_MEMTYPE_INPUT =>
    set_in_buff (dev.heap.count + 1) (size_of (row_at P fn i dev))
      (after_block P fn i (row_at P fn i dev) dev)
  | MemType.XA_MEMTYPE_OUTPUT =>
    set_out_buff (dev.heap.count + 1) (size_of (row_at P fn i dev))
      (after_block P fn i (row_at P fn i dev) dev)
  | _ => after_block P fn i (row_at P fn i dev) dev

/-- Every capability call and every allocation of the run that negotiates the
`n` blocks with the indexes `i`, `i + 1`, ... from `dev` succeeds, and every
role reported on the run is recognized. -/
def run_ok (P : Platform σ) (fn : ApiFn) : Nat → Int → comp_dev σ → Prop
  | 0, _, _ => True
  | n + 1, i, dev => block_ok P fn i dev ∧ run_ok P fn n (i + 1) (block_next P fn i dev)

/-- The table that the library reports on that run, row by row. -/
def run_table (P : Platform σ) (fn : ApiFn) : Nat → Int → comp_dev σ → List MemTab
  | 0, _, _ => []
  | n + 1, i, dev => row_at P fn i dev :: run_table P fn n (i + 1) (block_next P fn i dev)

/-- The device after the two calls that open `init_memory_tables`: the
post-config-params init command and the count query. -/
def after_count (P : Platform σ) (fn : ApiFn) (dev : comp_dev σ) : comp_dev σ :=
  (api_call P fn ApiCmd.XA_API_CMD_GET_N_MEMTABS
    (api_call P fn (ApiCmd.XA_API_CMD_INIT
      InitType.XA_CMD_TYPE_INIT_API_POST_CONFIG_PARAMS) dev).2).2

/-- A vendor library with a call counter as its state that enforces the order
of the negotiation protocol for three memory tables: each call is answered
with no-error only at its own position in the sequence (init, count, then
role, size, alignment and set-memory-pointer for the indexes 0, 1, 2) and with
the fatal status `-1` anywhere else. The roles are input, output, input and
the sizes 128, 256, 384 bytes at alignment 8. -/
def api_ordered : ApiFn → Ptr → ApiCmd → Nat → ApiResult × Nat
  | _, _, ApiCmd.XA_API_CMD_INIT InitType.XA_CMD_TYPE_INIT_API_POST_CONFIG_PARAMS, n =>
    (⟨if n = 0 then 0 else -1, 0⟩, n + 1)
  | _, _, ApiCmd.XA_API_CMD_GET_N_MEMTABS, n => (⟨if n = 1 then 0 else -1, 3⟩, n + 1)
  | _, _, ApiCmd.XA_API_CMD_GET_MEM_INFO_TYPE i, n =>
    (⟨if (n : Int) = 2 + 4 * i then 0 else -1, if i = 1 then 3 else 2⟩, n + 1)
  | _, _, ApiCmd.XA_API_CMD_GET_MEM_INFO_SIZE i, n =>
    (⟨if (n : Int) = 3 + 4 * i then 0 else -1, 128 * (i + 1)⟩, n + 1)
  | _, _, ApiCmd.XA_API_CMD_GET_MEM_INFO_ALIGNMENT i, n =>
    (⟨if (n : Int) = 4 + 4 * i then 0 else -1, 8⟩, n + 1)
  | _, _, ApiCmd.XA_API_CMD_SET_MEM_PTR i _, n =>
    (⟨if (n : Int) = 5 + 4 * i then 0 else -1, 0⟩, n + 1)
  | _, _, _, n => (⟨0, 64⟩, n + 1)

/-- A platform over the library `api_ordered` whose allocator serves requests
of at most 384 bytes. -/
def platform_ordered : Platform Nat :=
  test_platform api_ordered (fun _ sz _ => decide (sz ≤ 384))

/-- The log `b` continues the log `a`: it is `a` followed by further events. -/
def log_grows (a b : List Event) : Prop :=
  ∃ rest, b = a ++ rest

/-- The heap `h2` comes after the heap `h`: every block live in `h2` was live
in `h` or has been handed out since, and no address has been taken back. -/
def heap_after (h h2 : Heap) : Prop :=
  (∀ p ∈ h2.live, p ∈ h.live ∨ h.count < p) ∧ h.count ≤ h2.count

/-! # Theorems -/

/-! ## Registry lemmas -/

theorem find_api_eq_none (l : List cadence_api) (id : Nat) :
    find_api l id = none ↔ ∀ e ∈ l, e.id ≠ id := by
  induction l with
  | nil => simp [find_api]
  | cons a l ih =>
    by_cases h : a.id = id
    · simp [find_api, h]
    · simp [find_api, h, ih]

theorem find_api_of_mem (l : List cadence_api) (hn : (l.map cadence_api.id).Nodup)
    (e : cadence_api) (he : e ∈ l) : find_api l e.id = some e.api := by
  induction l with
  | nil => simp at he
  | cons a l ih =>
    simp only [List.map_cons, List.nodup_cons, List.mem_map, not_exists, not_and] at hn
    rcases List.mem_cons.mp he with h | h
    · subst h; simp [find_api]
    · have hne : a.id ≠ e.id := fun hh => hn.1 e h hh.symm
      simp [find_api, hne, ih hn.2 h]

theorem cadence_api_table_nodup (k : Kconfig) :
    ((cadence_api_table k).map cadence_api.id).Nodup := by
  obtain ⟨a, b, c, d, e, f, g⟩ := k
  cases a <;> cases b <;> cases c <;> cases d <;> cases e <;> cases f <;> cases g <;>
    simp [cadence_api_table]

/-! ## `cadence_codec_init`: theorems -/

/-- Failure of the first allocation: `cadence_codec_init` returns `-ENOMEM`
without any capability call. -/
theorem init_record_alloc_failure (P : Platform σ) (dev : comp_dev σ)
    (hrec : P.alloc_ok dev.heap P.sizeof_cadence_codec_data 0 = false) :
    (cadence_codec_init P dev).1 = - ENOMEM ∧
    (cadence_codec_init P dev).2.log =
      dev.log ++ [Event.alloc P.sizeof_cadence_codec_data 0 NULL] := by
  simp [cadence_codec_init, codec_allocate_memory, hrec]

/-- C1 (the code departs from the claim): for a registered codec id, when the
private record is allocated, the name query and the object-size query return
no-error and the allocation of the codec object fails, `cadence_codec_init`
frees the private record and then returns the status left by the object-size
query, which is `0`, and not `-ENOMEM`. -/
theorem init_object_alloc_failure_returns_zero (P : Platform σ) (dev : comp_dev σ) (fn : ApiFn)
    (hid : find_api (cadence_api_table P.kconfig) (P.CODEC_GET_API_ID dev.codec.id) = some fn)
    (hrec : P.alloc_ok dev.heap P.sizeof_cadence_codec_data 0 = true)
    (hname : (P.api fn NULL ApiCmd.XA_API_CMD_GET_LIB_ID_STRINGS dev.vendor).1.ret
      = LIB_NO_ERROR)
    (hsize : (P.api fn NULL ApiCmd.XA_API_CMD_GET_API_SIZE
      (P.api fn NULL ApiCmd.XA_API_CMD_GET_LIB_ID_STRINGS dev.vendor).2).1.ret = LIB_NO_ERROR)
    (hobj : P.alloc_ok dev.heap.served
      (uint32 (P.api fn NULL ApiCmd.XA_API_CMD_GET_API_SIZE
        (P.api fn NULL ApiCmd.XA_API_CMD_GET_LIB_ID_STRINGS dev.vendor).2).1.out) 0 = false) :
    (cadence_codec_init P dev).1 = 0 ∧
    (cadence_codec_init P dev).1 ≠ - ENOMEM ∧
    (cadence_codec_init P dev).2.log = dev.log ++
      [Event.alloc P.sizeof_cadence_codec_data 0 (dev.heap.count + 1),
       Event.call fn NULL ApiCmd.XA_API_CMD_GET_LIB_ID_STRINGS,
       Event.call fn NULL ApiCmd.XA_API_CMD_GET_API_SIZE,
       Event.alloc (uint32 (P.api fn NULL ApiCmd.XA_API_CMD_GET_API_SIZE
        (P.api fn NULL ApiCmd.XA_API_CMD_GET_LIB_ID_STRINGS dev.vendor).2).1.out) 0 NULL,
       Event.free (dev.heap.count + 1)] := by
  have h0 : (cadence_codec_init P dev).1 = 0 ∧ (cadence_codec_init P dev).2.log = dev.log ++
      [Event.alloc P.sizeof_cadence_codec_data 0 (dev.heap.count + 1),
       Event.call fn NULL ApiCmd.XA_API_CMD_GET_LIB_ID_STRINGS,
       Event.call fn NULL ApiCmd.XA_API_CMD_GET_API_SIZE,
       Event.alloc (uint32 (P.api fn NULL ApiCmd.XA_API_CMD_GET_API_SIZE
        (P.api fn NULL ApiCmd.XA_API_CMD_GET_LIB_ID_STRINGS dev.vendor).2).1.out) 0 NULL,
       Event.free (dev.heap.count + 1)] := by
    simp [cadence_codec_init, codec_allocate_memory, hrec, hid, api_call, init_private,
      set_api, set_self, codec_free_memory, hname, hsize, hobj, NULL, LIB_NO_ERROR] at *
  refine ⟨h0.1, ?_, h0.2⟩
  rw [h0.1]; decide


/-- Witness for C1: codec id `0x02` on a platform that serves the private
record and refuses the codec object. -/
theorem init_object_alloc_failure_returns_zero_witness :
    (cadence_codec_init platform_one_block (test_dev 0x02 no_cfg no_cfg)).1 = 0 ∧
    (cadence_codec_init platform_one_block (test_dev 0x02 no_cfg no_cfg)).1 ≠ - ENOMEM ∧
    (cadence_codec_init platform_one_block (test_dev 0x02 no_cfg no_cfg)).2.log =
      [Event.alloc 48 0 1,
       Event.call ApiFn.xa_aac_dec NULL ApiCmd.XA_API_CMD_GET_LIB_ID_STRINGS,
       Event.call ApiFn.xa_aac_dec NULL ApiCmd.XA_API_CMD_GET_API_SIZE,
       Event.alloc 64 0 NULL,
       Event.free 1] :=
  init_object_alloc_failure_returns_zero platform_one_block (test_dev 0x02 no_cfg no_cfg)
    ApiFn.xa_aac_dec (by decide) (by decide) (by decide) (by decide) (by decide)

/-- C2 (the code departs from the claim): for a codec id that no row of
`cadence_api_table` carries, when the private record is allocated,
`cadence_codec_init` returns `-EINVAL` and makes no capability call, but it
does not release the private record: the only event of the call is the
allocation of the record, the record is still live on return and
`codec->private` still points to it. -/
theorem init_unregistered_id_keeps_record (P : Platform σ) (dev : comp_dev σ)
    (hid : ∀ e ∈ cadence_api_table P.kconfig, e.id ≠ P.CODEC_GET_API_ID dev.codec.id)
    (hrec : P.alloc_ok dev.heap P.sizeof_cadence_codec_data 0 = true) :
    (cadence_codec_init P dev).1 = - EINVAL ∧
    (cadence_codec_init P dev).2.log =
      dev.log ++ [Event.alloc P.sizeof_cadence_codec_data 0 (dev.heap.count + 1)] ∧
    (cadence_codec_init P dev).2.heap.live = dev.heap.live ++ [dev.heap.count + 1] ∧
    (cadence_codec_init P dev).2.codec.priv = dev.heap.count + 1 := by
  have hnone := (find_api_eq_none _ _).mpr hid
  simp [cadence_codec_init, codec_allocate_memory, hrec, hnone, init_private, NULL,
    Heap.served]

/-- Witness for C2: codec id `0x08`, which no build configuration registers. -/
theorem init_unregistered_id_keeps_record_witness :
    (cadence_codec_init (test_platform api_ok (fun _ _ _ => true))
      (test_dev 0x08 no_cfg no_cfg)).1 = - EINVAL ∧
    (cadence_codec_init (test_platform api_ok (fun _ _ _ => true))
      (test_dev 0x08 no_cfg no_cfg)).2.log = [Event.alloc 48 0 1] ∧
    (cadence_codec_init (test_platform api_ok (fun _ _ _ => true))
      (test_dev 0x08 no_cfg no_cfg)).2.heap.live = [1] ∧
    (cadence_codec_init (test_platform api_ok (fun _ _ _ => true))
      (test_dev 0x08 no_cfg no_cfg)).2.codec.priv = 1 :=
  init_unregistered_id_keeps_record (test_platform api_ok (fun _ _ _ => true))
    (test_dev 0x08 no_cfg no_cfg) (by decide) (by decide)

/-- C3: for a codec id carried by a row `e` of `cadence_api_table`, if both
allocations are served and the name query and the object-size query return
no-error, `cadence_codec_init` returns `0`, binds the entry point of `e`, and
leaves in `cd->self` a non-null live block that was requested with the size
reported by the object-size query. -/
theorem init_success (P : Platform σ) (dev : comp_dev σ) (e : cadence_api)
    (he : e ∈ cadence_api_table P.kconfig)
    (hid : e.id = P.CODEC_GET_API_ID dev.codec.id)
    (hrec : P.alloc_ok dev.heap P.sizeof_cadence_codec_data 0 = true)
    (hname : (P.api e.api NULL ApiCmd.XA_API_CMD_GET_LIB_ID_STRINGS dev.vendor).1.ret
      = LIB_NO_ERROR)
    (hsize : (P.api e.api NULL ApiCmd.XA_API_CMD_GET_API_SIZE
      (P.api e.api NULL ApiCmd.XA_API_CMD_GET_LIB_ID_STRINGS dev.vendor).2).1.ret
      = LIB_NO_ERROR)
    (hobj : P.alloc_ok dev.heap.served
      (uint32 (P.api e.api NULL ApiCmd.XA_API_CMD_GET_API_SIZE
        (P.api e.api NULL ApiCmd.XA_API_CMD_GET_LIB_ID_STRINGS dev.vendor).2).1.out) 0
      = true) :
    (cadence_codec_init P dev).1 = 0 ∧
    (cadence_codec_init P dev).2.codec.cd.api = some e.api ∧
    (cadence_codec_init P dev).2.codec.cd.self ≠ NULL ∧
    (cadence_codec_init P dev).2.codec.cd.self ∈ (cadence_codec_init P dev).2.heap.live ∧
    (cadence_codec_init P dev).2.log = dev.log ++
      [Event.alloc P.sizeof_cadence_codec_data 0 (dev.heap.count + 1),
       Event.call e.api NULL ApiCmd.XA_API_CMD_GET_LIB_ID_STRINGS,
       Event.call e.api NULL ApiCmd.XA_API_CMD_GET_API_SIZE,
       Event.alloc (uint32 (P.api e.api NULL ApiCmd.XA_API_CMD_GET_API_SIZE
        (P.api e.api NULL ApiCmd.XA_API_CMD_GET_LIB_ID_STRINGS dev.vendor).2).1.out) 0
        (cadence_codec_init P dev).2.codec.cd.self] := by
  have hfind := find_api_of_mem _ (cadence_api_table_nodup P.kconfig) e he
  rw [hid] at hfind
  simp [cadence_codec_init, codec_allocate_memory, hrec, hfind, api_call, init_private,
    set_api, set_self, hname, hsize, hobj, NULL, LIB_NO_ERROR, Heap.served] at *

/-- Witness for C3: codec id `0x06` on a platform that serves every request. -/
theorem init_success_witness :
    (cadence_codec_init (test_platform api_ok (fun _ _ _ => true))
      (test_dev 0x06 no_cfg no_cfg)).1 = 0 ∧
    (cadence_codec_init (test_platform api_ok (fun _ _ _ => true))
      (test_dev 0x06 no_cfg no_cfg)).2.codec.cd.api = some ApiFn.xa_mp3_dec ∧
    (cadence_codec_init (test_platform api_ok (fun _ _ _ => true))
      (test_dev 0x06 no_cfg no_cfg)).2.codec.cd.self = 2 :=
  have h := init_success (test_platform api_ok (fun _ _ _ => true))
    (test_dev 0x06 no_cfg no_cfg) ⟨0x06, ApiFn.xa_mp3_dec⟩
    (by decide) (by decide) (by decide) (by decide) (by decide) (by decide)
  ⟨h.1, h.2.1, by decide⟩

/-! ## `apply_config`: lemmas about the walk -/

theorem int32_of_range (x : Int) (h1 : -2147483648 ≤ x) (h2 : x < 2147483648) :
    int32 x = x := by
  unfold int32; omega

theorem packed_at_append (data : Nat → codec_param) (a b : List codec_param) (off : Nat) :
    packed_at data off (a ++ b) ↔
      packed_at data off a ∧ packed_at data (off + total_size a) b := by
  induction a generalizing off with
  | nil => simp [packed_at, total_size]
  | cons p a ih =>
    have hts : total_size (p :: a) = p.size + total_size a := by simp [total_size]
    rw [List.cons_append, packed_at, packed_at, ih, hts, and_assoc, Nat.add_assoc]

theorem total_size_append (a b : List codec_param) :
    total_size (a ++ b) = total_size a + total_size b := by
  simp [total_size]

theorem after_params_nil (P : Platform σ) (fn : ApiFn) (dev : comp_dev σ) :
    after_params P fn [] dev = dev := by
  simp [after_params, push_params, param_calls]

theorem after_params_cons (P : Platform σ) (fn : ApiFn) (p : codec_param)
    (ps : List codec_param) (dev : comp_dev σ) :
    after_params P fn (p :: ps) dev
      = after_params P fn ps (api_call P fn (set_param_cmd p) dev).2 := by
  simp [after_params, push_params, param_calls, api_call]

theorem after_params_append (P : Platform σ) (fn : ApiFn) (a b : List codec_param)
    (dev : comp_dev σ) :
    after_params P fn (a ++ b) dev = after_params P fn b (after_params P fn a dev) := by
  induction a generalizing dev with
  | nil => simp [after_params_nil]
  | cons p a ih => simp [after_params_cons, ih]

theorem after_params_api (P : Platform σ) (fn : ApiFn) (ps : List codec_param)
    (dev : comp_dev σ) : (after_params P fn ps dev).codec = dev.codec := rfl

theorem api_call_codec (P : Platform σ) (fn : ApiFn) (cmd : ApiCmd) (dev : comp_dev σ) :
    (api_call P fn cmd dev).2.codec = dev.codec := rfl

/-- One iteration of the walk whose call is not fatal. -/
theorem walk_step (P : Platform σ) (data : Nat → codec_param) (fn : ApiFn) (fuel : Nat)
    (size : Int) (cursor : Nat) (dev : comp_dev σ)
    (hapi : dev.codec.cd.api = some fn) (hpos : 0 < size)
    (hnf : P.LIB_IS_FATAL_ERROR
      (P.api fn dev.codec.cd.self (set_param_cmd (data cursor)) dev.vendor).1.ret = false) :
    apply_config_walk P data (fuel + 1) size cursor dev =
      apply_config_walk P data fuel (int32 (size - (data cursor).size))
        (cursor + (data cursor).size) (api_call P fn (set_param_cmd (data cursor)) dev).2 := by
  have hnf2 : P.LIB_IS_FATAL_ERROR
      (api_call P fn (set_param_cmd (data cursor)) dev).1.ret = false := hnf
  rw [apply_config_walk]
  simp [hpos, API_CALL, hapi, set_param_cmd] at *
  simp [hnf2]

/-- One iteration of the walk whose call is fatal. -/
theorem walk_step_fatal (P : Platform σ) (data : Nat → codec_param) (fn : ApiFn) (fuel : Nat)
    (size : Int) (cursor : Nat) (dev : comp_dev σ)
    (hapi : dev.codec.cd.api = some fn) (hpos : 0 < size)
    (hf : P.LIB_IS_FATAL_ERROR
      (P.api fn dev.codec.cd.self (set_param_cmd (data cursor)) dev.vendor).1.ret = true) :
    apply_config_walk P data (fuel + 1) size cursor dev =
      (Exit.ret (P.api fn dev.codec.cd.self (set_param_cmd (data cursor)) dev.vendor).1.ret,
        (api_call P fn (set_param_cmd (data cursor)) dev).2) := by
  have hne : (P.api fn dev.codec.cd.self (set_param_cmd (data cursor)) dev.vendor).1.ret
      ≠ LIB_NO_ERROR := by
    intro h0
    rw [h0, P.no_error_not_fatal] at hf
    exact Bool.noConfusion hf
  rw [apply_config_walk]
  simp [hpos, API_CALL, hapi, set_param_cmd, api_call] at *
  simp [hf, hne]

/-- The walk over parameters that leave part of the budget: all of them are
passed to the capability, in order, when none of the calls is fatal. -/
theorem walk_leading (P : Platform σ) (data : Nat → codec_param) (fn : ApiFn) :
    ∀ (ps : List codec_param) (fuel : Nat) (size : Int) (cursor : Nat) (dev : comp_dev σ),
      dev.codec.cd.api = some fn →
      packed_at data cursor ps →
      size < 2147483648 →
      (total_size ps : Int) < size →
      (∀ r ∈ (push_params P fn dev.codec.cd.self ps dev.vendor).1,
        P.LIB_IS_FATAL_ERROR r = false) →
      apply_config_walk P data (ps.length + fuel) size cursor dev =
        apply_config_walk P data fuel (size - total_size ps) (cursor + total_size ps)
          (after_params P fn ps dev) := by
  intro ps
  induction ps with
  | nil =>
    intro fuel size cursor dev _ _ _ _ _
    simp [total_size, after_params_nil]
  | cons p ps ih =>
    intro fuel size cursor dev hapi hpk hlt hsum hnf
    obtain ⟨hp, hrest⟩ := hpk
    have hts : total_size (p :: ps) = p.size + total_size ps := by simp [total_size]
    rw [hts] at hsum
    push_cast at hsum
    have hpos : 0 < size := by omega
    have hnf1 : P.LIB_IS_FATAL_ERROR
        (P.api fn dev.codec.cd.self (set_param_cmd (data cursor)) dev.vendor).1.ret = false := by
      rw [hp]; exact hnf _ (by simp [push_params])
    have hlen : (p :: ps).length + fuel = (ps.length + fuel) + 1 := by
      simp; omega
    rw [hlen, walk_step P data fn _ size cursor dev hapi hpos hnf1, hp,
      int32_of_range _ (by omega) (by omega)]
    rw [ih fuel (size - p.size) (cursor + p.size) _ (by rw [api_call_codec]; exact hapi) hrest
      (by omega) (by omega) ?_]
    · rw [after_params_cons, hts]
      congr 1
      · push_cast; ring
      · ring
    · intro r hr
      apply hnf
      simp only [push_params, List.mem_cons]
      right
      exact hr

/-- A capability that never returns a fatal status returns none along a run. -/
theorem push_params_not_fatal (P : Platform σ) (fn : ApiFn) (self : Ptr)
    (hcap : ∀ f s c v, P.LIB_IS_FATAL_ERROR (P.api f s c v).1.ret = false) :
    ∀ (ps : List codec_param) (v : σ),
      ∀ r ∈ (push_params P fn self ps v).1, P.LIB_IS_FATAL_ERROR r = false := by
  intro ps
  induction ps with
  | nil => intro v r hr; simp [push_params] at hr
  | cons p ps ih =>
    intro v r hr
    simp only [push_params, List.mem_cons] at hr
    rcases hr with h | h
    · rw [h]; exact hcap _ _ _ _
    · exact ih _ r h

/-- With a budget that is used up, the walk returns `0` whatever the fuel. -/
theorem walk_done (P : Platform σ) (data : Nat → codec_param) (fuel : Nat) (size : Int)
    (cursor : Nat) (dev : comp_dev σ) (h : size ≤ 0) :
    apply_config_walk P data fuel size cursor dev = (Exit.ret 0, dev) := by
  have hn : ¬ (0 < size) := by omega
  cases fuel <;> simp [apply_config_walk, hn]

/-- An available blob with a size between 1 and `2^31 - 1` is walked with that
size as the budget. -/
theorem apply_config_walks (P : Platform σ) (fuel : Nat) (type : codec_cfg_type)
    (dev : comp_dev σ) (havail : (select_cfg type dev.codec).avail = true)
    (hne : 0 < (select_cfg type dev.codec).size)
    (hmax : (select_cfg type dev.codec).size < 2147483648) :
    apply_config P fuel type dev =
      apply_config_walk P (select_cfg type dev.codec).data fuel
        ((select_cfg type dev.codec).size : Int) 0 dev := by
  have h32 : int32 ((select_cfg type dev.codec).size : Int) = (select_cfg type dev.codec).size :=
    int32_of_range _ (by omega) (by omega)
  have h0 : ((select_cfg type dev.codec).size : Int) ≠ 0 := by omega
  simp [apply_config, havail, h32, h0]

theorem after_params_concat (P : Platform σ) (fn : ApiFn) (ps : List codec_param)
    (z : codec_param) (dev : comp_dev σ) :
    after_params P fn (ps ++ [z]) dev
      = (api_call P fn (set_param_cmd z) (after_params P fn ps dev)).2 := by
  rw [after_params_append, after_params_cons, after_params_nil]

/-- The walk over `ps ++ [z]` when `ps` leaves part of the budget and `z` uses
up the rest or more: every parameter is passed to the capability once, in
order, and the walk returns `0` when none of the calls is fatal. -/
theorem walk_finish (P : Platform σ) (data : Nat → codec_param) (fn : ApiFn)
    (ps : List codec_param) (z : codec_param) (fuel : Nat) (size : Int) (cursor : Nat)
    (dev : comp_dev σ) (hapi : dev.codec.cd.api = some fn)
    (hpk : packed_at data cursor (ps ++ [z]))
    (hmax : size < 2147483648)
    (hlt : (total_size ps : Int) < size)
    (hle : size ≤ total_size ps + z.size)
    (hwrap : (z.size : Int) ≤ size - total_size ps + 2147483648)
    (hnf : ∀ r ∈ (push_params P fn dev.codec.cd.self (ps ++ [z]) dev.vendor).1,
      P.LIB_IS_FATAL_ERROR r = false)
    (hfuel : ps.length + 1 ≤ fuel) :
    apply_config_walk P data fuel size cursor dev
      = (Exit.ret 0, after_params P fn (ps ++ [z]) dev) := by
  obtain ⟨k, rfl⟩ : ∃ k, fuel = ps.length + (k + 1) := ⟨fuel - (ps.length + 1), by omega⟩
  rw [packed_at_append] at hpk
  obtain ⟨hps, hz, _⟩ := hpk
  have hnf1 : ∀ r ∈ (push_params P fn dev.codec.cd.self ps dev.vendor).1,
      P.LIB_IS_FATAL_ERROR r = false := by
    intro r hr
    apply hnf
    have : ∀ (l : List codec_param) (v : σ),
        (push_params P fn dev.codec.cd.self (l ++ [z]) v).1
          = (push_params P fn dev.codec.cd.self l v).1
            ++ [(P.api fn dev.codec.cd.self (set_param_cmd z)
                (push_params P fn dev.codec.cd.self l v).2).1.ret] := by
      intro l
      induction l with
      | nil => intro v; simp [push_params]
      | cons a l ih => intro v; simp [push_params, ih]
    rw [this]; exact List.mem_append_left _ hr
  have hnfz : P.LIB_IS_FATAL_ERROR
      (P.api fn (after_params P fn ps dev).codec.cd.self
        (set_param_cmd (data (cursor + total_size ps))) (after_params P fn ps dev).vendor).1.ret
      = false := by
    rw [hz]
    apply hnf
    have : ∀ (l : List codec_param) (v : σ),
        (P.api fn dev.codec.cd.self (set_param_cmd z)
          (push_params P fn dev.codec.cd.self l v).2).1.ret
          ∈ (push_params P fn dev.codec.cd.self (l ++ [z]) v).1 := by
      intro l
      induction l with
      | nil => intro v; simp [push_params]
      | cons a l ih => intro v; simp only [List.cons_append, push_params, List.mem_cons]; right; exact ih _
    exact this ps dev.vendor
  rw [walk_leading P data fn ps (k + 1) size cursor dev hapi hps hmax hlt hnf1,
    walk_step P data fn k _ _ _ (by rw [after_params_api]; exact hapi) (by omega) hnfz, hz,
    walk_done _ _ _ _ _ _ ?_, after_params_concat]
  have hlow : (-2147483648 : Int) ≤ size - total_size ps - z.size := by omega
  rw [int32_of_range _ hlow (by omega)]
  omega

/-! ## `apply_config`: theorems -/

/-- C4 as stated fails at both ends of the size range. An available blob of
size 0 holds the empty list of parameters, whose sizes sum to the blob size,
and `apply_config` returns `-EIO` for it, not `0`. An available blob of `2^31`
bytes holding one parameter of that size is not walked at all: the budget
`int size` is negative, no call is made and `0` is returned. -/
theorem apply_config_exact_budget_counterexample :
    (packed_at cfg_empty.data 0 [] ∧ total_size [] = cfg_empty.size ∧
      cfg_empty.avail = true ∧
      (apply_config platform_ok 4 codec_cfg_type.CODEC_CFG_SETUP
        (ready_dev cfg_empty no_cfg)).1 = Exit.ret (- EIO)) ∧
    (packed_at cfg_huge.data 0 [⟨10, 2147483648, [1]⟩] ∧
      total_size [⟨10, 2147483648, [1]⟩] = cfg_huge.size ∧ cfg_huge.avail = true ∧
      (apply_config platform_ok 4 codec_cfg_type.CODEC_CFG_SETUP
        (ready_dev cfg_huge no_cfg)).1 = Exit.ret 0 ∧
      (apply_config platform_ok 4 codec_cfg_type.CODEC_CFG_SETUP
        (ready_dev cfg_huge no_cfg)).2.log = []) := by
  refine ⟨⟨trivial, by decide, by decide, by decide⟩, ⟨⟨rfl, trivial⟩, by decide, by decide, ?_, ?_⟩⟩
  · decide
  · decide

/-- C4 (amended): for every available blob whose size lies between 1 and
`2^31 - 1` and which holds a list of parameters with positive sizes that sum
exactly to the blob size, and for every capability that returns no status
classified fatal, `apply_config` invokes set-config-parameter exactly once per
parameter, in list order, with the id and payload of that parameter, changes
nothing else, and returns `0`, whatever statuses the invocations returned. -/
theorem apply_config_exact_budget (P : Platform σ) (type : codec_cfg_type) (dev : comp_dev σ)
    (fn : ApiFn) (ps : List codec_param) (fuel : Nat)
    (hapi : dev.codec.cd.api = some fn)
    (havail : (select_cfg type dev.codec).avail = true)
    (hpk : packed_at (select_cfg type dev.codec).data 0 ps)
    (hpos : ∀ p ∈ ps, 0 < p.size)
    (hsum : total_size ps = (select_cfg type dev.codec).size)
    (hne : 0 < (select_cfg type dev.codec).size)
    (hmax : (select_cfg type dev.codec).size < 2147483648)
    (hcap : ∀ f s c v, P.LIB_IS_FATAL_ERROR (P.api f s c v).1.ret = false)
    (hfuel : ps.length ≤ fuel) :
    (apply_config P fuel type dev).1 = Exit.ret 0 ∧
    (apply_config P fuel type dev).2 = after_params P fn ps dev ∧
    (apply_config P fuel type dev).2.log = dev.log ++ param_calls fn dev.codec.cd.self ps := by
  rcases List.eq_nil_or_concat ps with h | ⟨init, z, h⟩
  · subst h; simp [total_size] at hsum; omega
  · rw [List.concat_eq_append] at h
    subst h
    have hz : 0 < z.size := hpos z (by simp)
    rw [total_size_append] at hsum
    have hzs : total_size [z] = z.size := by simp [total_size]
    rw [hzs] at hsum
    have hw := walk_finish P (select_cfg type dev.codec).data fn init z fuel
      ((select_cfg type dev.codec).size : Int) 0 dev hapi hpk (by omega) (by omega) (by omega)
      (by omega) (push_params_not_fatal P fn _ hcap _ _) (by simpa using hfuel)
    rw [apply_config_walks P fuel type dev havail hne hmax, hw]
    exact ⟨rfl, rfl, rfl⟩

/-- Witness for C4: the setup blob `cfg_two` of two parameters. -/
theorem apply_config_exact_budget_witness :
    (apply_config platform_ok 2 codec_cfg_type.CODEC_CFG_SETUP (ready_dev cfg_two no_cfg)).1
      = Exit.ret 0 ∧
    (apply_config platform_ok 2 codec_cfg_type.CODEC_CFG_SETUP (ready_dev cfg_two no_cfg)).2.log
      = [Event.call ApiFn.xa_mp3_dec 2 (ApiCmd.XA_API_CMD_SET_CONFIG_PARAM 10 [1]),
         Event.call ApiFn.xa_mp3_dec 2 (ApiCmd.XA_API_CMD_SET_CONFIG_PARAM 11 [2])] :=
  have h := apply_config_exact_budget platform_ok codec_cfg_type.CODEC_CFG_SETUP
    (ready_dev cfg_two no_cfg) ApiFn.xa_mp3_dec [⟨10, 8, [1]⟩, ⟨11, 8, [2]⟩] 2
    rfl rfl ⟨rfl, rfl, trivial⟩ (by decide) (by decide) (by decide) (by decide)
    (fun _ _ _ _ => rfl) (by decide)
  ⟨h.1, h.2.2⟩

/-- At a parameter of declared size 0 the walk never leaves the loop when the
capability returns no fatal status: after `n` iterations it has invoked
set-config-parameter `n` times for that parameter. -/
theorem walk_zero_size (P : Platform σ) (data : Nat → codec_param) (fn : ApiFn)
    (size : Int) (cursor : Nat) (hpos : 0 < size) (hmax : size < 2147483648)
    (hz : (data cursor).size = 0)
    (hcap : ∀ f s c v, P.LIB_IS_FATAL_ERROR (P.api f s c v).1.ret = false) :
    ∀ (n : Nat) (dev : comp_dev σ), dev.codec.cd.api = some fn →
      apply_config_walk P data n size cursor dev
        = (Exit.hang, after_params P fn (List.replicate n (data cursor)) dev) := by
  intro n
  induction n with
  | zero =>
    intro dev _
    simp [apply_config_walk, hpos, after_params_nil]
  | succ n ih =>
    intro dev hapi
    rw [walk_step P data fn n size cursor dev hapi hpos (hcap _ _ _ _), hz,
      List.replicate_succ, after_params_cons]
    have h32 : int32 (size - ((0 : Nat) : Int)) = size := by
      rw [int32_of_range _ (by omega) (by omega)]; omega
    rw [h32, Nat.add_zero]
    exact ih _ (by rw [api_call_codec]; exact hapi)

/-- Before the budget is used up the walk does not return when the capability
returns no fatal status and the fuel does not reach past the parameters `ps`. -/
theorem walk_short_of_fuel (P : Platform σ) (data : Nat → codec_param) (fn : ApiFn)
    (hcap : ∀ f s c v, P.LIB_IS_FATAL_ERROR (P.api f s c v).1.ret = false) :
    ∀ (ps : List codec_param) (fuel : Nat) (size : Int) (cursor : Nat) (dev : comp_dev σ),
      dev.codec.cd.api = some fn →
      packed_at data cursor ps →
      size < 2147483648 →
      (total_size ps : Int) < size →
      fuel ≤ ps.length →
      (apply_config_walk P data fuel size cursor dev).1 = Exit.hang := by
  intro ps
  induction ps with
  | nil =>
    intro fuel size cursor dev _ _ _ hsum hfuel
    have h0 : fuel = 0 := by simpa using hfuel
    subst h0
    simp [total_size] at hsum
    simp [apply_config_walk, hsum]
  | cons p ps ih =>
    intro fuel size cursor dev hapi hpk hlt hsum hfuel
    obtain ⟨hp, hrest⟩ := hpk
    have hts : total_size (p :: ps) = p.size + total_size ps := by simp [total_size]
    rw [hts] at hsum
    push_cast at hsum
    have hpos : 0 < size := by omega
    cases fuel with
    | zero => simp [apply_config_walk, hpos]
    | succ fuel =>
      rw [walk_step P data fn fuel size cursor dev hapi hpos (hcap _ _ _ _), hp,
        int32_of_range _ (by omega) (by omega)]
      exact ih fuel _ _ _ (by rw [api_call_codec]; exact hapi) hrest (by omega) (by omega)
        (by simpa using hfuel)

/-- C5 as stated fails: on the blob `cfg_zero`, whose parameter at the cursor
declares size 0, with a capability that answers every call with status 0,
`apply_config` never returns, and after three iterations it has invoked
set-config-parameter three times at the same cursor position. -/
theorem apply_config_zero_size_counterexample :
    (¬ ∃ fuel r, (apply_config platform_ok fuel codec_cfg_type.CODEC_CFG_SETUP
        (ready_dev cfg_zero no_cfg)).1 = Exit.ret r) ∧
    (apply_config platform_ok 3 codec_cfg_type.CODEC_CFG_SETUP
        (ready_dev cfg_zero no_cfg)).2.log
      = [Event.call ApiFn.xa_mp3_dec 2 (ApiCmd.XA_API_CMD_SET_CONFIG_PARAM 7 [1]),
         Event.call ApiFn.xa_mp3_dec 2 (ApiCmd.XA_API_CMD_SET_CONFIG_PARAM 7 [1]),
         Event.call ApiFn.xa_mp3_dec 2 (ApiCmd.XA_API_CMD_SET_CONFIG_PARAM 7 [1])] := by
  constructor
  · rintro ⟨fuel, r, h⟩
    rw [apply_config_walks platform_ok fuel codec_cfg_type.CODEC_CFG_SETUP
      (ready_dev cfg_zero no_cfg) rfl (by decide) (by decide),
      walk_zero_size platform_ok _ ApiFn.xa_mp3_dec _ 0 (by decide) (by decide) rfl
        (fun _ _ _ _ => rfl) fuel _ rfl] at h
    exact Exit.noConfusion h
  · decide

/-- C5 (amended): for every available blob whose size lies between 1 and
`2^31 - 1`, if the walk reaches, after the parameters `ps`, a parameter `z` of
declared size 0 while budget is left, and the capability returns no status
classified fatal, then `apply_config` does not return a failure there: it never
returns, and after `n` further iterations it has invoked set-config-parameter
`n` times for `z` at the same cursor position. -/
theorem apply_config_zero_size_never_returns (P : Platform σ) (type : codec_cfg_type)
    (dev : comp_dev σ) (fn : ApiFn) (ps : List codec_param) (z : codec_param)
    (hapi : dev.codec.cd.api = some fn)
    (havail : (select_cfg type dev.codec).avail = true)
    (hne : 0 < (select_cfg type dev.codec).size)
    (hmax : (select_cfg type dev.codec).size < 2147483648)
    (hpk : packed_at (select_cfg type dev.codec).data 0 (ps ++ [z]))
    (hreach : total_size ps < (select_cfg type dev.codec).size)
    (hz : z.size = 0)
    (hcap : ∀ f s c v, P.LIB_IS_FATAL_ERROR (P.api f s c v).1.ret = false) :
    (∀ fuel, (apply_config P fuel type dev).1 = Exit.hang) ∧
    (∀ n, (apply_config P (ps.length + n) type dev).2.log =
      dev.log ++ param_calls fn dev.codec.cd.self (ps ++ List.replicate n z)) := by
  rw [packed_at_append] at hpk
  obtain ⟨hps, hzat, _⟩ := hpk
  rw [Nat.zero_add] at hzat
  have hlt : (total_size ps : Int) < ((select_cfg type dev.codec).size : Int) := by omega
  have hlong : ∀ n, apply_config P (ps.length + n) type dev
      = (Exit.hang, after_params P fn (ps ++ List.replicate n z) dev) := by
    intro n
    rw [apply_config_walks P _ type dev havail hne hmax,
      walk_leading P _ fn ps n _ 0 dev hapi hps (by omega) hlt
        (push_params_not_fatal P fn _ hcap _ _),
      walk_zero_size P _ fn _ _ (by omega) (by omega) (by rw [Nat.zero_add, hzat]; exact hz)
        hcap n _ (by rw [after_params_api]; exact hapi),
      Nat.zero_add, hzat, after_params_append]
  constructor
  · intro fuel
    by_cases hf : fuel ≤ ps.length
    · rw [apply_config_walks P _ type dev havail hne hmax]
      exact walk_short_of_fuel P _ fn hcap ps fuel _ 0 dev hapi hps (by omega) hlt hf
    · obtain ⟨n, rfl⟩ : ∃ n, fuel = ps.length + n := ⟨fuel - ps.length, by omega⟩
      rw [hlong n]
  · intro n
    rw [hlong n]
    rfl

/-- Witness for C5: the setup blob `cfg_zero`, with no parameter before the
one of size 0. -/
theorem apply_config_zero_size_never_returns_witness :
    (∀ fuel, (apply_config platform_ok fuel codec_cfg_type.CODEC_CFG_SETUP
      (ready_dev cfg_zero no_cfg)).1 = Exit.hang) ∧
    (∀ n, (apply_config platform_ok (0 + n) codec_cfg_type.CODEC_CFG_SETUP
      (ready_dev cfg_zero no_cfg)).2.log =
      [] ++ param_calls ApiFn.xa_mp3_dec 2 ([] ++ List.replicate n ⟨7, 0, [1]⟩)) :=
  apply_config_zero_size_never_returns platform_ok codec_cfg_type.CODEC_CFG_SETUP
    (ready_dev cfg_zero no_cfg) ApiFn.xa_mp3_dec [] ⟨7, 0, [1]⟩ rfl rfl (by decide) (by decide)
    ⟨rfl, trivial⟩ (by decide) rfl (fun _ _ _ _ => rfl)

/-- C6 as stated fails: on the blob `cfg_over` of 8 bytes whose first parameter
declares 16 bytes, with a capability that answers every call with status 0,
`apply_config` invokes set-config-parameter for the over-length parameter and
returns `0`. -/
theorem apply_config_over_length_counterexample :
    cfg_over.avail = true ∧ cfg_over.size < (cfg_over.data 0).size ∧
    (apply_config platform_ok 1 codec_cfg_type.CODEC_CFG_SETUP
        (ready_dev cfg_over no_cfg)).1 = Exit.ret 0 ∧
    (apply_config platform_ok 1 codec_cfg_type.CODEC_CFG_SETUP
        (ready_dev cfg_over no_cfg)).2.log
      = [Event.call ApiFn.xa_mp3_dec 2 (ApiCmd.XA_API_CMD_SET_CONFIG_PARAM 9 [1])] := by
  refine ⟨rfl, by decide, ?_, ?_⟩
  · decide
  · decide

/-- C6 (amended): for every available blob whose size lies between 1 and
`2^31 - 1`, if the walk reaches, after the parameters `ps`, a parameter `z`
whose declared size exceeds the budget that is left (by no more than `2^31`),
and no invocation returns a status classified fatal, then `apply_config`
invokes set-config-parameter for `z` as for the parameters before it and
returns `0`: the code has no over-length check. -/
theorem apply_config_over_length_returns_ok (P : Platform σ) (type : codec_cfg_type)
    (dev : comp_dev σ) (fn : ApiFn) (ps : List codec_param) (z : codec_param) (fuel : Nat)
    (hapi : dev.codec.cd.api = some fn)
    (havail : (select_cfg type dev.codec).avail = true)
    (hmax : (select_cfg type dev.codec).size < 2147483648)
    (hpk : packed_at (select_cfg type dev.codec).data 0 (ps ++ [z]))
    (hreach : total_size ps < (select_cfg type dev.codec).size)
    (hover : (select_cfg type dev.codec).size - total_size ps < z.size)
    (hwrap : z.size ≤ (select_cfg type dev.codec).size - total_size ps + 2147483648)
    (hnf : ∀ r ∈ (push_params P fn dev.codec.cd.self (ps ++ [z]) dev.vendor).1,
      P.LIB_IS_FATAL_ERROR r = false)
    (hfuel : ps.length + 1 ≤ fuel) :
    (apply_config P fuel type dev).1 = Exit.ret 0 ∧
    (apply_config P fuel type dev).2.log
      = dev.log ++ param_calls fn dev.codec.cd.self (ps ++ [z]) := by
  have hw := walk_finish P (select_cfg type dev.codec).data fn ps z fuel
    ((select_cfg type dev.codec).size : Int) 0 dev hapi hpk (by omega) (by omega) (by omega)
    (by omega) hnf hfuel
  rw [apply_config_walks P fuel type dev havail (by omega) hmax, hw]
  exact ⟨rfl, rfl⟩

/-- Witness for C6: the setup blob `cfg_over`. -/
theorem apply_config_over_length_returns_ok_witness :
    (apply_config platform_ok 1 codec_cfg_type.CODEC_CFG_SETUP
      (ready_dev cfg_over no_cfg)).1 = Exit.ret 0 ∧
    (apply_config platform_ok 1 codec_cfg_type.CODEC_CFG_SETUP
      (ready_dev cfg_over no_cfg)).2.log
      = [] ++ param_calls ApiFn.xa_mp3_dec 2 ([] ++ [⟨9, 16, [1]⟩]) :=
  apply_config_over_length_returns_ok platform_ok codec_cfg_type.CODEC_CFG_SETUP
    (ready_dev cfg_over no_cfg) ApiFn.xa_mp3_dec [] ⟨9, 16, [1]⟩ 1 rfl rfl (by decide)
    ⟨rfl, trivial⟩ (by decide) (by decide) (by decide) (by decide) (by decide)

/-- C7: for every available blob that is well formed (it holds the parameters
`pre ++ p :: post`, all of positive size, whose sizes sum exactly to the blob
size, which fits the `int` budget), if set-config-parameter returns no fatal
status for the parameters `pre` and a status classified fatal for `p`, then
`apply_config` returns that status unchanged and has invoked
set-config-parameter for `pre` and `p` only, never for a parameter of `post`;
`cadence_codec_apply_config` does the same over the runtime blob. -/
theorem apply_config_fatal_aborts (P : Platform σ) (type : codec_cfg_type)
    (dev : comp_dev σ) (fn : ApiFn) (pre post : List codec_param) (p : codec_param)
    (fuel : Nat)
    (hapi : dev.codec.cd.api = some fn)
    (havail : (select_cfg type dev.codec).avail = true)
    (hpk : packed_at (select_cfg type dev.codec).data 0 (pre ++ p :: post))
    (hpos : ∀ q ∈ pre ++ p :: post, 0 < q.size)
    (hsum : total_size (pre ++ p :: post) = (select_cfg type dev.codec).size)
    (hmax : (select_cfg type dev.codec).size < 2147483648)
    (hpre : ∀ r ∈ (push_params P fn dev.codec.cd.self pre dev.vendor).1,
      P.LIB_IS_FATAL_ERROR r = false)
    (hfatal : P.LIB_IS_FATAL_ERROR (P.api fn dev.codec.cd.self (set_param_cmd p)
      (push_params P fn dev.codec.cd.self pre dev.vendor).2).1.ret = true)
    (hfuel : pre.length + 1 ≤ fuel) :
    (apply_config P fuel type dev).1 = Exit.ret (P.api fn dev.codec.cd.self (set_param_cmd p)
      (push_params P fn dev.codec.cd.self pre dev.vendor).2).1.ret ∧
    (apply_config P fuel type dev).2.log
      = dev.log ++ param_calls fn dev.codec.cd.self (pre ++ [p]) ∧
    (type = codec_cfg_type.CODEC_CFG_RUNTIME →
      (cadence_codec_apply_config P fuel dev).1
        = Exit.ret (P.api fn dev.codec.cd.self (set_param_cmd p)
            (push_params P fn dev.codec.cd.self pre dev.vendor).2).1.ret ∧
      (cadence_codec_apply_config P fuel dev).2.log
        = dev.log ++ param_calls fn dev.codec.cd.self (pre ++ [p])) := by
  obtain ⟨k, rfl⟩ : ∃ k, fuel = pre.length + (k + 1) := ⟨fuel - (pre.length + 1), by omega⟩
  have hp : 0 < p.size := hpos p (by simp)
  rw [packed_at_append] at hpk
  obtain ⟨hps, hpat, _⟩ := hpk
  rw [Nat.zero_add] at hpat
  rw [total_size_append] at hsum
  have hts : total_size (p :: post) = p.size + total_size post := by simp [total_size]
  rw [hts] at hsum
  have hw : apply_config P (pre.length + (k + 1)) type dev
      = (Exit.ret (P.api fn dev.codec.cd.self (set_param_cmd p)
          (push_params P fn dev.codec.cd.self pre dev.vendor).2).1.ret,
        after_params P fn (pre ++ [p]) dev) := by
    rw [apply_config_walks P _ type dev havail (by omega) hmax,
      walk_leading P _ fn pre (k + 1) _ 0 dev hapi hps (by omega) (by omega) hpre,
      walk_step_fatal P _ fn k _ _ _ (by rw [after_params_api]; exact hapi) (by omega)
        (by rw [Nat.zero_add, hpat]; exact hfatal),
      Nat.zero_add, hpat, after_params_concat]
    rfl
  refine ⟨by rw [hw], by rw [hw]; rfl, ?_⟩
  intro ht
  subst ht
  have hrt : cadence_codec_apply_config P (pre.length + (k + 1)) dev
      = apply_config P (pre.length + (k + 1)) codec_cfg_type.CODEC_CFG_RUNTIME dev := rfl
  rw [hrt, hw]
  exact ⟨rfl, rfl⟩

/-- Witness for C7: the runtime blob `cfg_three` with a capability whose
second call is fatal: the third parameter is never passed on. -/
theorem apply_config_fatal_aborts_witness :
    (apply_config (test_platform api_second_fatal (fun _ _ _ => true)) 3
      codec_cfg_type.CODEC_CFG_RUNTIME (ready_dev no_cfg cfg_three)).1 = Exit.ret (-1) ∧
    (apply_config (test_platform api_second_fatal (fun _ _ _ => true)) 3
      codec_cfg_type.CODEC_CFG_RUNTIME (ready_dev no_cfg cfg_three)).2.log
      = [Event.call ApiFn.xa_mp3_dec 2 (ApiCmd.XA_API_CMD_SET_CONFIG_PARAM 10 [1]),
         Event.call ApiFn.xa_mp3_dec 2 (ApiCmd.XA_API_CMD_SET_CONFIG_PARAM 11 [2])] ∧
    (cadence_codec_apply_config (test_platform api_second_fatal (fun _ _ _ => true)) 3
        (ready_dev no_cfg cfg_three)).1 = Exit.ret (-1) :=
  have h := apply_config_fatal_aborts (test_platform api_second_fatal (fun _ _ _ => true))
    codec_cfg_type.CODEC_CFG_RUNTIME (ready_dev no_cfg cfg_three) ApiFn.xa_mp3_dec
    [⟨10, 8, [1]⟩] [⟨12, 8, [3]⟩] ⟨11, 8, [2]⟩ 3 rfl rfl ⟨rfl, rfl, rfl, trivial⟩
    (by decide) (by decide) (by decide) (by decide) (by decide) (by decide)
  ⟨h.1, h.2.1, (h.2.2 rfl).1⟩

/-- C8: for the setup blob and for the runtime blob alike, when the
availability flag is false or the size is 0, `apply_config` returns `-EIO` and
leaves the device as it was, the log included: it makes no capability call. So
the walk is entered only with the flag true and a size above 0. -/
theorem apply_config_no_config (P : Platform σ) (fuel : Nat) (type : codec_cfg_type)
    (dev : comp_dev σ)
    (h : (select_cfg type dev.codec).avail = false ∨ (select_cfg type dev.codec).size = 0) :
    apply_config P fuel type dev = (Exit.ret (- EIO), dev) ∧
    (apply_config P fuel type dev).2.log = dev.log := by
  have h2 : (select_cfg type dev.codec).avail = false ∨
      int32 ((select_cfg type dev.codec).size : Int) = 0 := by
    rcases h with h | h
    · exact Or.inl h
    · right; rw [h]; decide
  have h3 : apply_config P fuel type dev = (Exit.ret (- EIO), dev) := by
    unfold apply_config
    simp only [h2, if_true]
  rw [h3]
  exact ⟨rfl, rfl⟩

/-- Witness for C8: a runtime blob that holds parameters but is not flagged
available. -/
theorem apply_config_no_config_witness :
    apply_config platform_ok 3 codec_cfg_type.CODEC_CFG_RUNTIME
        (ready_dev no_cfg { cfg_two with avail := false })
      = (Exit.ret (- EIO), ready_dev no_cfg { cfg_two with avail := false }) ∧
    (apply_config platform_ok 3 codec_cfg_type.CODEC_CFG_RUNTIME
        (ready_dev no_cfg { cfg_two with avail := false })).2.log
      = (ready_dev no_cfg { cfg_two with avail := false }).log :=
  apply_config_no_config platform_ok 3 codec_cfg_type.CODEC_CFG_RUNTIME
    (ready_dev no_cfg { cfg_two with avail := false }) (Or.inl rfl)

/-! ## `init_memory_tables`: lemmas -/

theorem alloc_codec (P : Platform σ) (size alignment : Nat) (dev : comp_dev σ) :
    (codec_allocate_memory P size alignment dev).2.codec = dev.codec := by
  unfold codec_allocate_memory; split <;> rfl

theorem alloc_log (P : Platform σ) (size alignment : Nat) (dev : comp_dev σ) :
    (codec_allocate_memory P size alignment dev).2.log
      = dev.log ++ [Event.alloc size alignment (codec_allocate_memory P size alignment dev).1] := by
  unfold codec_allocate_memory; split <;> rfl

theorem api_call_log (P : Platform σ) (fn : ApiFn) (cmd : ApiCmd) (dev : comp_dev σ) :
    (api_call P fn cmd dev).2.log = dev.log ++ [Event.call fn dev.codec.cd.self cmd] := rfl

theorem loop_failed_alloc (P : Platform σ) (sz al : Nat) :
    ∀ (n : Nat) (i : Int) (l : MemLocals) (dev : comp_dev σ),
      Event.alloc sz al NULL ∈ (init_memory_tables_loop P n i l dev).2.2.log →
      Event.alloc sz al NULL ∈ dev.log ∨
        (init_memory_tables_loop P n i l dev).1 = some (Exit.ret (- EINVAL)) := by
  intro n
  induction n with
  | zero => intro i l dev h; left; simpa [init_memory_tables_loop] using h
  | succ n ih =>
    intro i l dev
    rw [init_memory_tables_loop]
    cases hapi : dev.codec.cd.api with
    | none => simp [API_CALL, hapi]
    | some fn =>
      simp only [API_CALL, hapi, api_call_codec, alloc_codec]
      split_ifs with h1 h2 h3 h4 h5
      · simp [api_call_log]; tauto
      · simp [api_call_log]; tauto
      · simp [api_call_log]; tauto
      · simp [api_call_log, alloc_log]
      · simp [api_call_log, alloc_log]; tauto
      · have hrest : ∀ d : comp_dev σ,
            d.log = (api_call P fn (ApiCmd.XA_API_CMD_SET_MEM_PTR i
              (codec_allocate_memory P
                (uint32 (int32 (api_call P fn (ApiCmd.XA_API_CMD_GET_MEM_INFO_SIZE i)
                  (api_call P fn (ApiCmd.XA_API_CMD_GET_MEM_INFO_TYPE i) dev).2).1.out))
                (uint32 (int32 (api_call P fn (ApiCmd.XA_API_CMD_GET_MEM_INFO_ALIGNMENT i)
                  (api_call P fn (ApiCmd.XA_API_CMD_GET_MEM_INFO_SIZE i)
                    (api_call P fn (ApiCmd.XA_API_CMD_GET_MEM_INFO_TYPE i) dev).2).2).1.out))
                (api_call P fn (ApiCmd.XA_API_CMD_GET_MEM_INFO_ALIGNMENT i)
                  (api_call P fn (ApiCmd.XA_API_CMD_GET_MEM_INFO_SIZE i)
                    (api_call P fn (ApiCmd.XA_API_CMD_GET_MEM_INFO_TYPE i) dev).2).2).2).1)
              (codec_allocate_memory P
                (uint32 (int32 (api_call P fn (ApiCmd.XA_API_CMD_GET_MEM_INFO_SIZE i)
                  (api_call P fn (ApiCmd.XA_API_CMD_GET_MEM_INFO_TYPE i) dev).2).1.out))
                (uint32 (int32 (api_call P fn (ApiCmd.XA_API_CMD_GET_MEM_INFO_ALIGNMENT i)
                  (api_call P fn (ApiCmd.XA_API_CMD_GET_MEM_INFO_SIZE i)
                    (api_call P fn (ApiCmd.XA_API_CMD_GET_MEM_INFO_TYPE i) dev).2).2).1.out))
                (api_call P fn (ApiCmd.XA_API_CMD_GET_MEM_INFO_ALIGNMENT i)
                  (api_call P fn (ApiCmd.XA_API_CMD_GET_MEM_INFO_SIZE i)
                    (api_call P fn (ApiCmd.XA_API_CMD_GET_MEM_INFO_TYPE i) dev).2).2).2).2).2.log →
            Event.alloc sz al NULL ∈ d.log → Event.alloc sz al NULL ∈ dev.log := by
          intro d hd hm
          rw [hd] at hm
          simp [api_call_log, alloc_log] at hm
          rcases hm with hm | hm
          · exact hm
          · exact absurd hm.2.2.symm h4
        split
        · intro hm
          rcases ih _ _ _ hm with h | h
          · exact Or.inl (hrest _ rfl h)
          · exact Or.inr h
        · intro hm
          rcases ih _ _ _ hm with h | h
          · exact Or.inl (hrest _ rfl h)
          · exact Or.inr h
        · intro hm
          rcases ih _ _ _ hm with h | h
          · exact Or.inl (hrest _ rfl h)
          · exact Or.inr h
        · intro hm
          rcases ih _ _ _ hm with h | h
          · exact Or.inl (hrest _ rfl h)
          · exact Or.inr h
        · intro hm
          exact Or.inl (hrest _ rfl hm)


theorem err_fst (ret : Int) (l : MemLocals) (dev : comp_dev σ) :
    (init_memory_tables_err ret l dev).1 = Exit.ret ret := rfl

theorem err_alloc_mem (ret : Int) (l : MemLocals) (dev : comp_dev σ) (sz al : Nat) (p : Ptr) :
    Event.alloc sz al p ∈ (init_memory_tables_err ret l dev).2.log →
      Event.alloc sz al p ∈ dev.log := by
  unfold init_memory_tables_err
  simp only []
  split_ifs <;> simp [codec_free_memory]

/-- C9 (the code departs from the claim): whenever an allocation requested by
`init_memory_tables` fails (the log of the call gains a failed allocation
event), the function returns `-EINVAL`, and so never `-ENOMEM`. -/
theorem init_memory_tables_alloc_failure_einval (P : Platform σ) (dev : comp_dev σ)
    (sz al : Nat)
    (hclean : Event.alloc sz al NULL ∉ dev.log)
    (hfail : Event.alloc sz al NULL ∈ (init_memory_tables P dev).2.log) :
    (init_memory_tables P dev).1 = Exit.ret (- EINVAL) ∧
    (init_memory_tables P dev).1 ≠ Exit.ret (- ENOMEM) := by
  have key : (init_memory_tables P dev).1 = Exit.ret (- EINVAL) := by
    revert hfail
    unfold init_memory_tables
    cases hapi : dev.codec.cd.api with
    | none => simp [API_CALL, hapi]; intro h; exact absurd h hclean
    | some fn =>
      simp only [API_CALL, hapi, api_call_codec]
      split_ifs with h1 h2
      · intro h
        have := err_alloc_mem _ _ _ _ _ _ h
        simp [api_call_log] at this
        exact absurd this hclean
      · intro h
        have := err_alloc_mem _ _ _ _ _ _ h
        simp [api_call_log] at this
        exact absurd this hclean
      · have hloop := loop_failed_alloc P sz al
          (int32 (api_call P fn ApiCmd.XA_API_CMD_GET_N_MEMTABS
            (api_call P fn (ApiCmd.XA_API_CMD_INIT
              InitType.XA_CMD_TYPE_INIT_API_POST_CONFIG_PARAMS) dev).2).1.out).toNat 0
          ⟨NULL, NULL⟩
          (api_call P fn ApiCmd.XA_API_CMD_GET_N_MEMTABS
            (api_call P fn (ApiCmd.XA_API_CMD_INIT
              InitType.XA_CMD_TYPE_INIT_API_POST_CONFIG_PARAMS) dev).2).2
        have hpre : Event.alloc sz al NULL ∉
            (api_call P fn ApiCmd.XA_API_CMD_GET_N_MEMTABS
              (api_call P fn (ApiCmd.XA_API_CMD_INIT
                InitType.XA_CMD_TYPE_INIT_API_POST_CONFIG_PARAMS) dev).2).2.log := by
          simp [api_call_log]; exact hclean
        split
        · rename_i hn
          intro h
          rcases hloop h with h' | h'
          · exact absurd h' hpre
          · rw [hn] at h'; exact Option.noConfusion h'
        · rename_i e he
          intro h
          rcases hloop (err_alloc_mem _ _ _ _ _ _ h) with h' | h'
          · exact absurd h' hpre
          · rw [he] at h'
            cases h'
            rfl
        · rename_i x hne hx
          intro h
          rcases hloop h with h' | h'
          · exact absurd h' hpre
          · rw [hx] at h'
            cases h'
            exact absurd rfl (hne (- EINVAL))
  refine ⟨key, ?_⟩
  rw [key]
  decide


/-- Witness for C9: four tables with the roles scratch, scratch, input, output
and a failed allocation for table 2. The call returns `-EINVAL`; it frees the
block of table 1 only, and the block of table 0 (address 3) is still live. -/
theorem init_memory_tables_alloc_failure_einval_witness :
    ((init_memory_tables platform_third_block_fails (ready_dev no_cfg no_cfg)).1
        = Exit.ret (- EINVAL) ∧
      (init_memory_tables platform_third_block_fails (ready_dev no_cfg no_cfg)).1
        ≠ Exit.ret (- ENOMEM)) ∧
    (init_memory_tables platform_third_block_fails (ready_dev no_cfg no_cfg)).2.log.filter
        (fun e => match e with
          | Event.call _ _ _ => false
          | _ => true)
      = [Event.alloc 256 8 3, Event.alloc 256 8 4, Event.alloc 256 8 NULL, Event.free 4] ∧
    (init_memory_tables platform_third_block_fails (ready_dev no_cfg no_cfg)).2.heap.live
      = [1, 2, 3] :=
  ⟨init_memory_tables_alloc_failure_einval platform_third_block_fails
      (ready_dev no_cfg no_cfg) 256 8 (by decide) (by decide),
    by decide, by decide⟩

/-- C10 (the code departs from the claim): three failures of
`init_memory_tables` after which the blocks freed are not the blocks allocated
by the call. When set-memory-pointer fails for table 0, the block just
allocated (address 3) is not freed and stays live. When table 1 reports an
unrecognized role, the block allocated for it (address 4) is not freed and
stays live, while the block of table 0 is freed. When the post-config init
command fails on a device that has an input and an output buffer recorded from
an earlier negotiation, both are freed although the call allocated nothing. -/
theorem init_memory_tables_error_paths_unbalanced :
    ((init_memory_tables (test_platform (api_tables [2, 3] (some 0)) (fun _ _ _ => true))
        (ready_dev no_cfg no_cfg)).1 = Exit.ret (-7) ∧
      (init_memory_tables (test_platform (api_tables [2, 3] (some 0)) (fun _ _ _ => true))
        (ready_dev no_cfg no_cfg)).2.log.filter
          (fun e => match e with
            | Event.call _ _ _ => false
            | _ => true)
        = [Event.alloc 256 8 3] ∧
      (init_memory_tables (test_platform (api_tables [2, 3] (some 0)) (fun _ _ _ => true))
        (ready_dev no_cfg no_cfg)).2.heap.live = [1, 2, 3]) ∧
    ((init_memory_tables (test_platform (api_tables [2, 7] none) (fun _ _ _ => true))
        (ready_dev no_cfg no_cfg)).1 = Exit.ret (- EINVAL) ∧
      (init_memory_tables (test_platform (api_tables [2, 7] none) (fun _ _ _ => true))
        (ready_dev no_cfg no_cfg)).2.log.filter
          (fun e => match e with
            | Event.call _ _ _ => false
            | _ => true)
        = [Event.alloc 256 8 3, Event.alloc 256 8 4, Event.free 3] ∧
      (init_memory_tables (test_platform (api_tables [2, 7] none) (fun _ _ _ => true))
        (ready_dev no_cfg no_cfg)).2.heap.live = [1, 2, 4]) ∧
    ((init_memory_tables (test_platform api_init_fails (fun _ _ _ => true)) bound_dev).1
        = Exit.ret (-9) ∧
      (init_memory_tables (test_platform api_init_fails (fun _ _ _ => true)) bound_dev).2.log
        = [Event.call ApiFn.xa_mp3_dec 2
            (ApiCmd.XA_API_CMD_INIT InitType.XA_CMD_TYPE_INIT_API_POST_CONFIG_PARAMS),
           Event.free 40, Event.free 41]) := by
  refine ⟨⟨?_, ?_, ?_⟩, ⟨?_, ?_, ?_⟩, ⟨?_, ?_⟩⟩ <;> decide

/-! ## `init_memory_tables` with no tables, `cadence_codec_process`, repeated prepare -/

/-- C11: when the post-config-params init command and the block-count query
return no-error and the count read is 0, `init_memory_tables` returns `0`; its
only events are those two calls, so it makes no allocation and no
set-memory-pointer call, and it leaves the codec instance (the input and
output buffer pointers and sizes included) and the heap as they were. -/
theorem init_memory_tables_no_tables (P : Platform σ) (dev : comp_dev σ) (fn : ApiFn)
    (hapi : dev.codec.cd.api = some fn)
    (hinit : (P.api fn dev.codec.cd.self
      (ApiCmd.XA_API_CMD_INIT InitType.XA_CMD_TYPE_INIT_API_POST_CONFIG_PARAMS)
      dev.vendor).1.ret = LIB_NO_ERROR)
    (hcount : (P.api fn dev.codec.cd.self ApiCmd.XA_API_CMD_GET_N_MEMTABS
      (P.api fn dev.codec.cd.self
        (ApiCmd.XA_API_CMD_INIT InitType.XA_CMD_TYPE_INIT_API_POST_CONFIG_PARAMS)
        dev.vendor).2).1.ret = LIB_NO_ERROR)
    (hzero : int32 (P.api fn dev.codec.cd.self ApiCmd.XA_API_CMD_GET_N_MEMTABS
      (P.api fn dev.codec.cd.self
        (ApiCmd.XA_API_CMD_INIT InitType.XA_CMD_TYPE_INIT_API_POST_CONFIG_PARAMS)
        dev.vendor).2).1.out = 0) :
    (init_memory_tables P dev).1 = Exit.ret 0 ∧
    (init_memory_tables P dev).2.log = dev.log ++
      [Event.call fn dev.codec.cd.self
        (ApiCmd.XA_API_CMD_INIT InitType.XA_CMD_TYPE_INIT_API_POST_CONFIG_PARAMS),
       Event.call fn dev.codec.cd.self ApiCmd.XA_API_CMD_GET_N_MEMTABS] ∧
    (init_memory_tables P dev).2.codec.cpd = dev.codec.cpd ∧
    (init_memory_tables P dev).2.heap = dev.heap := by
  simp [init_memory_tables, API_CALL, hapi, api_call, hinit, hcount, hzero,
    init_memory_tables_loop]

/-- Witness for C11: the library `api_no_tables` on a device that has buffers
recorded from before. -/
theorem init_memory_tables_no_tables_witness :
    (init_memory_tables (test_platform api_no_tables (fun _ _ _ => true)) bound_dev).1
      = Exit.ret 0 ∧
    (init_memory_tables (test_platform api_no_tables (fun _ _ _ => true)) bound_dev).2.log
      = bound_dev.log ++
      [Event.call ApiFn.xa_mp3_dec bound_dev.codec.cd.self
        (ApiCmd.XA_API_CMD_INIT InitType.XA_CMD_TYPE_INIT_API_POST_CONFIG_PARAMS),
       Event.call ApiFn.xa_mp3_dec bound_dev.codec.cd.self ApiCmd.XA_API_CMD_GET_N_MEMTABS] ∧
    (init_memory_tables (test_platform api_no_tables (fun _ _ _ => true)) bound_dev).2.codec.cpd
      = bound_dev.codec.cpd ∧
    (init_memory_tables (test_platform api_no_tables (fun _ _ _ => true)) bound_dev).2.heap
      = bound_dev.heap :=
  init_memory_tables_no_tables (test_platform api_no_tables (fun _ _ _ => true)) bound_dev
    ApiFn.xa_mp3_dec rfl rfl rfl (by decide)

/-- C12: `cadence_codec_process` issues set-input-bytes with the input byte
count of the instance, then execute, then get-output-bytes. If a call returns
a status other than no-error, that status is returned and no later call is
issued. If all three return no-error, `0` is returned, the input byte count is
unchanged and the produced byte count is the value the capability reported. -/
theorem process_pass_through (P : Platform σ) (dev : comp_dev σ) (fn : ApiFn)
    (hapi : dev.codec.cd.api = some fn) :
    ((answer_set_input P fn dev).1.ret ≠ LIB_NO_ERROR →
      (cadence_codec_process P dev).1 = Exit.ret (answer_set_input P fn dev).1.ret ∧
      (cadence_codec_process P dev).2.log = dev.log ++
        [Event.call fn dev.codec.cd.self
          (ApiCmd.XA_API_CMD_SET_INPUT_BYTES dev.codec.cpd.avail)]) ∧
    ((answer_set_input P fn dev).1.ret = LIB_NO_ERROR →
      (answer_execute P fn dev).1.ret ≠ LIB_NO_ERROR →
      (cadence_codec_process P dev).1 = Exit.ret (answer_execute P fn dev).1.ret ∧
      (cadence_codec_process P dev).2.log = dev.log ++
        [Event.call fn dev.codec.cd.self
          (ApiCmd.XA_API_CMD_SET_INPUT_BYTES dev.codec.cpd.avail),
         Event.call fn dev.codec.cd.self ApiCmd.XA_API_CMD_EXECUTE]) ∧
    ((answer_set_input P fn dev).1.ret = LIB_NO_ERROR →
      (answer_execute P fn dev).1.ret = LIB_NO_ERROR →
      (cadence_codec_process P dev).2.log = dev.log ++
        [Event.call fn dev.codec.cd.self
          (ApiCmd.XA_API_CMD_SET_INPUT_BYTES dev.codec.cpd.avail),
         Event.call fn dev.codec.cd.self ApiCmd.XA_API_CMD_EXECUTE,
         Event.call fn dev.codec.cd.self ApiCmd.XA_API_CMD_GET_OUTPUT_BYTES] ∧
      (cadence_codec_process P dev).1 = Exit.ret (answer_get_output P fn dev).1.ret ∧
      ((answer_get_output P fn dev).1.ret = LIB_NO_ERROR →
        (cadence_codec_process P dev).1 = Exit.ret 0 ∧
        (cadence_codec_process P dev).2.codec.cpd.avail = dev.codec.cpd.avail ∧
        (cadence_codec_process P dev).2.codec.cpd.produced
          = uint32 (answer_get_output P fn dev).1.out)) := by
  refine ⟨?_, ?_, ?_⟩
  · intro h1
    simp [cadence_codec_process, API_CALL, hapi, api_call, answer_set_input] at *
    simp [h1]
  · intro h1 h2
    simp [cadence_codec_process, API_CALL, hapi, api_call, answer_set_input,
      answer_execute] at *
    simp [h1, h2]
  · intro h1 h2
    by_cases h3 : (answer_get_output P fn dev).1.ret = LIB_NO_ERROR
    · simp [cadence_codec_process, API_CALL, hapi, api_call, answer_set_input,
        answer_execute, answer_get_output, set_produced] at *
      simp [h1, h2, h3, LIB_NO_ERROR]
    · simp [cadence_codec_process, API_CALL, hapi, api_call, answer_set_input,
        answer_execute, answer_get_output, set_produced] at *
      simp [h1, h2, h3]

/-- Witness for C12: 480 input bytes, a capability that answers every call
with no-error and reports 64 produced bytes. -/
theorem process_pass_through_witness :
    (cadence_codec_process platform_ok running_dev).1 = Exit.ret 0 ∧
    (cadence_codec_process platform_ok running_dev).2.log =
      [Event.call ApiFn.xa_mp3_dec 2 (ApiCmd.XA_API_CMD_SET_INPUT_BYTES 480),
       Event.call ApiFn.xa_mp3_dec 2 ApiCmd.XA_API_CMD_EXECUTE,
       Event.call ApiFn.xa_mp3_dec 2 ApiCmd.XA_API_CMD_GET_OUTPUT_BYTES] ∧
    (cadence_codec_process platform_ok running_dev).2.codec.cpd.avail = 480 ∧
    (cadence_codec_process platform_ok running_dev).2.codec.cpd.produced = 64 :=
  have h := (process_pass_through platform_ok running_dev ApiFn.xa_mp3_dec rfl).2.2 rfl rfl
  ⟨(h.2.2 rfl).1, h.1, (h.2.2 rfl).2.1, (h.2.2 rfl).2.2⟩

/-- C13: on an instance whose lifecycle state is PREPARED,
`cadence_codec_prepare` returns `0` and leaves the device exactly as it was:
the log gains no capability call and no allocation, the heap is unchanged, and
no field of the instance changes, the flag and the size of the setup blob
included. -/
theorem prepare_when_prepared (P : Platform σ) (fuel : Nat) (dev : comp_dev σ)
    (h : dev.codec.state = codec_state.CODEC_PREPARED) :
    cadence_codec_prepare P fuel dev = (Exit.ret 0, dev) ∧
    (cadence_codec_prepare P fuel dev).2.log = dev.log ∧
    (cadence_codec_prepare P fuel dev).2.heap = dev.heap ∧
    (cadence_codec_prepare P fuel dev).2.codec.s_cfg.avail = dev.codec.s_cfg.avail ∧
    (cadence_codec_prepare P fuel dev).2.codec.s_cfg.size = dev.codec.s_cfg.size := by
  have hrun : cadence_codec_prepare P fuel dev = (Exit.ret 0, dev) := by
    unfold cadence_codec_prepare
    rw [if_pos h]
  rw [hrun]
  exact ⟨rfl, rfl, rfl, rfl, rfl⟩

/-- Witness for C13: a prepared device with a fresh setup blob. -/
theorem prepare_when_prepared_witness :
    cadence_codec_prepare platform_ok 4 prepared_dev = (Exit.ret 0, prepared_dev) ∧
    (cadence_codec_prepare platform_ok 4 prepared_dev).2.log = prepared_dev.log ∧
    (cadence_codec_prepare platform_ok 4 prepared_dev).2.codec.s_cfg.avail = true :=
  have h := prepare_when_prepared platform_ok 4 prepared_dev rfl
  ⟨h.1, h.2.1, h.2.2.2.1⟩

/-! ## `update_stream_params`: theorems -/

/-- C16: `update_stream_params` pushes, through set-config-parameter, the
sample-rate id with the rate of the stream, then the sample-width id with the
width code, then the channel-count id with the channel count of the stream. A
fatal status of the first push is returned at once and nothing else is pushed;
otherwise a fatal status of the second push is returned at once and the third
is not pushed; otherwise the status of the third push is the return value. -/
theorem update_stream_params_sequence (P : Platform σ) (dev : comp_dev σ) (fn : ApiFn)
    (hapi : dev.codec.cd.api = some fn) :
    (P.LIB_IS_FATAL_ERROR (answer_rate P fn dev).1.ret = true →
      (update_stream_params P dev).1 = Exit.ret (answer_rate P fn dev).1.ret ∧
      (update_stream_params P dev).2.log = dev.log ++
        [Event.call fn dev.codec.cd.self (push_rate_cmd dev)]) ∧
    (P.LIB_IS_FATAL_ERROR (answer_rate P fn dev).1.ret = false →
      P.LIB_IS_FATAL_ERROR (answer_width P fn dev).1.ret = true →
      (update_stream_params P dev).1 = Exit.ret (answer_width P fn dev).1.ret ∧
      (update_stream_params P dev).2.log = dev.log ++
        [Event.call fn dev.codec.cd.self (push_rate_cmd dev),
         Event.call fn dev.codec.cd.self
          (push_width_cmd dev (sample_width dev.ca_data.stream_params))]) ∧
    (P.LIB_IS_FATAL_ERROR (answer_rate P fn dev).1.ret = false →
      P.LIB_IS_FATAL_ERROR (answer_width P fn dev).1.ret = false →
      (update_stream_params P dev).1 = Exit.ret (answer_channels P fn dev).1.ret ∧
      (update_stream_params P dev).2.log = dev.log ++
        [Event.call fn dev.codec.cd.self (push_rate_cmd dev),
         Event.call fn dev.codec.cd.self
          (push_width_cmd dev (sample_width dev.ca_data.stream_params)),
         Event.call fn dev.codec.cd.self (push_channels_cmd dev)]) := by
  refine ⟨?_, ?_, ?_⟩
  · intro h1
    simp [update_stream_params, API_CALL, hapi, api_call, answer_rate, push_rate_cmd] at *
    simp [h1]
  · intro h1 h2
    simp [update_stream_params, API_CALL, hapi, api_call, answer_rate, answer_width,
      push_rate_cmd, push_width_cmd] at *
    simp [h1, h2]
  · intro h1 h2
    simp [update_stream_params, API_CALL, hapi, api_call, answer_rate, answer_width,
      answer_channels, push_rate_cmd, push_width_cmd, push_channels_cmd] at *
    simp [h1, h2]

theorem sample_width_eq_spec (stream : sof_ipc_stream_params) :
    sample_width stream = spec_width_code stream.frame_fmt := by
  cases hf : stream.frame_fmt <;> simp [sample_width, spec_width_code, hf]

/-- Witness for C16: a capability whose answer to the sample-width push is
fatal: the channel count is not pushed and `-4` is returned. -/
theorem update_stream_params_sequence_witness :
    (update_stream_params (test_platform api_width_fatal (fun _ _ _ => true)) dev_s24).1
      = Exit.ret (-4) ∧
    (update_stream_params (test_platform api_width_fatal (fun _ _ _ => true)) dev_s24).2.log
      = [Event.call ApiFn.xa_mp3_dec 2 (ApiCmd.XA_API_CMD_SET_CONFIG_PARAM 1 [44100]),
         Event.call ApiFn.xa_mp3_dec 2 (ApiCmd.XA_API_CMD_SET_CONFIG_PARAM 2 [0x20])] :=
  (update_stream_params_sequence (test_platform api_width_fatal (fun _ _ _ => true)) dev_s24
    ApiFn.xa_mp3_dec rfl).2.1 rfl rfl

/-- C17: whatever the sample rate and the channel count, when the push of the
sample rate is not fatal the next event of `update_stream_params` is the push
of the sample-width id with the code `0x10` if the frame format of the stream
is `SOF_IPC_FRAME_S16_LE` and `0x20` for every other frame format; this is the
mapping of the specification, 24-bit and 32-bit formats included. -/
theorem update_stream_params_width_code (P : Platform σ) (dev : comp_dev σ) (fn : ApiFn)
    (hapi : dev.codec.cd.api = some fn)
    (hrate : P.LIB_IS_FATAL_ERROR (answer_rate P fn dev).1.ret = false) :
    (∃ rest, (update_stream_params P dev).2.log = dev.log ++
      [Event.call fn dev.codec.cd.self (push_rate_cmd dev),
       Event.call fn dev.codec.cd.self (push_width_cmd dev
        (if dev.ca_data.stream_params.frame_fmt = sof_ipc_frame.SOF_IPC_FRAME_S16_LE
          then 0x10 else 0x20))] ++ rest) ∧
    (if dev.ca_data.stream_params.frame_fmt = sof_ipc_frame.SOF_IPC_FRAME_S16_LE
        then (0x10 : Int) else 0x20) = spec_width_code dev.ca_data.stream_params.frame_fmt := by
  constructor
  · by_cases h2 : P.LIB_IS_FATAL_ERROR (answer_width P fn dev).1.ret = true
    · refine ⟨[], ?_⟩
      simp [update_stream_params, API_CALL, hapi, api_call, answer_rate, answer_width,
        push_rate_cmd, push_width_cmd, sample_width] at *
      simp [hrate, h2]
    · refine ⟨[Event.call fn dev.codec.cd.self (push_channels_cmd dev)], ?_⟩
      simp [update_stream_params, API_CALL, hapi, api_call, answer_rate, answer_width,
        push_rate_cmd, push_width_cmd, push_channels_cmd, sample_width] at *
      simp [hrate, h2]
  · cases hf : dev.ca_data.stream_params.frame_fmt <;> simp [spec_width_code]

/-- Witness for C17: a 24-bit stream of 44100 Hz and 6 channels gets the
code `0x20`. -/
theorem update_stream_params_width_code_witness :
    (∃ rest, (update_stream_params platform_ok dev_s24).2.log = dev_s24.log ++
      [Event.call ApiFn.xa_mp3_dec dev_s24.codec.cd.self (push_rate_cmd dev_s24),
       Event.call ApiFn.xa_mp3_dec dev_s24.codec.cd.self (push_width_cmd dev_s24
        (if dev_s24.ca_data.stream_params.frame_fmt = sof_ipc_frame.SOF_IPC_FRAME_S16_LE
          then 0x10 else 0x20))] ++ rest) ∧
    (if dev_s24.ca_data.stream_params.frame_fmt = sof_ipc_frame.SOF_IPC_FRAME_S16_LE
        then (0x10 : Int) else 0x20) = 0x20 :=
  ⟨(update_stream_params_width_code platform_ok dev_s24 ApiFn.xa_mp3_dec rfl rfl).1,
    by decide⟩

/-- C20 (the code departs from the claim): when none of the three pushes
returns a fatal status but the last one, the channel count, returns a status
other than `0`, `update_stream_params` does not report success: it returns that
recoverable status. -/
theorem update_stream_params_returns_recoverable (P : Platform σ) (dev : comp_dev σ)
    (fn : ApiFn) (hapi : dev.codec.cd.api = some fn)
    (h1 : P.LIB_IS_FATAL_ERROR (answer_rate P fn dev).1.ret = false)
    (h2 : P.LIB_IS_FATAL_ERROR (answer_width P fn dev).1.ret = false)
    (_h3 : P.LIB_IS_FATAL_ERROR (answer_channels P fn dev).1.ret = false)
    (hne : (answer_channels P fn dev).1.ret ≠ 0) :
    (update_stream_params P dev).1 = Exit.ret (answer_channels P fn dev).1.ret ∧
    (update_stream_params P dev).1 ≠ Exit.ret 0 := by
  have key : (update_stream_params P dev).1 = Exit.ret (answer_channels P fn dev).1.ret := by
    simp [update_stream_params, API_CALL, hapi, api_call, answer_rate, answer_width,
      answer_channels, push_rate_cmd, push_width_cmd, push_channels_cmd] at *
    simp [h1, h2]
  refine ⟨key, ?_⟩
  rw [key]
  intro h
  injection h with h
  exact hne h

/-- Witness for C20: the channel-count push returns the recoverable status 5.
`update_stream_params` returns 5, and `cadence_codec_prepare` returns 5 with
the channel-count push as its last event: the memory-table size is not
queried. -/
theorem update_stream_params_returns_recoverable_witness :
    ((update_stream_params (test_platform api_channels_recoverable (fun _ _ _ => true))
        (ready_dev cfg_two no_cfg)).1 = Exit.ret 5 ∧
      (update_stream_params (test_platform api_channels_recoverable (fun _ _ _ => true))
        (ready_dev cfg_two no_cfg)).1 ≠ Exit.ret 0) ∧
    (cadence_codec_prepare (test_platform api_channels_recoverable (fun _ _ _ => true)) 2
        (ready_dev cfg_two no_cfg)).1 = Exit.ret 5 ∧
    (cadence_codec_prepare (test_platform api_channels_recoverable (fun _ _ _ => true)) 2
        (ready_dev cfg_two no_cfg)).2.log.getLast?
      = some (Event.call ApiFn.xa_mp3_dec 2 (ApiCmd.XA_API_CMD_SET_CONFIG_PARAM 3 [2])) ∧
    Event.call ApiFn.xa_mp3_dec 2 ApiCmd.XA_API_CMD_GET_MEMTABS_SIZE ∉
      (cadence_codec_prepare (test_platform api_channels_recoverable (fun _ _ _ => true)) 2
        (ready_dev cfg_two no_cfg)).2.log :=
  ⟨update_stream_params_returns_recoverable
      (test_platform api_channels_recoverable (fun _ _ _ => true)) (ready_dev cfg_two no_cfg)
      ApiFn.xa_mp3_dec rfl rfl rfl rfl (by decide),
    by decide, by decide, by decide⟩

/-! ## `cadence_codec_prepare`: failures after the memory negotiation -/

/-- C14 (the code departs from the claim): two failures of
`cadence_codec_prepare` after a successful memory negotiation. The library
negotiates an input and an output block; the memory-table blob is the block at
address 3 and the two blocks are at addresses 4 and 5. When the process-init
command then fails with status `-3`, and likewise when the init-done query
reports not-ready (`-EINVAL`), the only block freed is the memory-table blob;
the two negotiated blocks are still live on return. -/
theorem prepare_failure_keeps_negotiated_blocks :
    ((cadence_codec_prepare (test_platform (api_process_fails [2, 3]) (fun _ _ _ => true)) 2
        (ready_dev cfg_two no_cfg)).1 = Exit.ret (-3) ∧
      memory_events (cadence_codec_prepare
        (test_platform (api_process_fails [2, 3]) (fun _ _ _ => true)) 2
        (ready_dev cfg_two no_cfg)).2.log
        = [Event.alloc 64 4 3, Event.alloc 256 8 4, Event.alloc 256 8 5, Event.free 3] ∧
      (cadence_codec_prepare (test_platform (api_process_fails [2, 3]) (fun _ _ _ => true)) 2
        (ready_dev cfg_two no_cfg)).2.heap.live = [1, 2, 4, 5]) ∧
    ((cadence_codec_prepare (test_platform (api_not_ready [2, 3]) (fun _ _ _ => true)) 2
        (ready_dev cfg_two no_cfg)).1 = Exit.ret (- EINVAL) ∧
      memory_events (cadence_codec_prepare
        (test_platform (api_not_ready [2, 3]) (fun _ _ _ => true)) 2
        (ready_dev cfg_two no_cfg)).2.log
        = [Event.alloc 64 4 3, Event.alloc 256 8 4, Event.alloc 256 8 5, Event.free 3] ∧
      (cadence_codec_prepare (test_platform (api_not_ready [2, 3]) (fun _ _ _ => true)) 2
        (ready_dev cfg_two no_cfg)).2.heap.live = [1, 2, 4, 5]) := by
  refine ⟨⟨?_, ?_, ?_⟩, ⟨?_, ?_, ?_⟩⟩ <;> decide

/-! ## Frame lemmas: the setup blob is not written by the helpers of prepare -/

theorem walk_codec (P : Platform σ) (data : Nat → codec_param) :
    ∀ (fuel : Nat) (size : Int) (cursor : Nat) (dev : comp_dev σ),
      (apply_config_walk P data fuel size cursor dev).2.codec = dev.codec := by
  intro fuel
  induction fuel with
  | zero => intro size cursor dev; simp only [apply_config_walk]; split <;> rfl
  | succ n ih =>
    intro size cursor dev
    rw [apply_config_walk]
    split
    · cases hapi : dev.codec.cd.api with
      | none => simp [API_CALL, hapi]
      | some fn =>
        simp only [API_CALL, hapi]
        split
        · rfl
        · rw [ih]; rfl
    · rfl

theorem apply_config_codec (P : Platform σ) (fuel : Nat) (type : codec_cfg_type)
    (dev : comp_dev σ) : (apply_config P fuel type dev).2.codec = dev.codec := by
  unfold apply_config
  simp only []
  split
  · rfl
  · exact walk_codec P _ _ _ _ _

theorem update_stream_params_codec (P : Platform σ) (dev : comp_dev σ) :
    (update_stream_params P dev).2.codec = dev.codec := by
  unfold update_stream_params
  cases hapi : dev.codec.cd.api with
  | none => simp [API_CALL, hapi]
  | some fn =>
    simp only [API_CALL, hapi, api_call_codec]
    split_ifs <;> rfl

theorem loop_s_cfg (P : Platform σ) :
    ∀ (n : Nat) (i : Int) (l : MemLocals) (dev : comp_dev σ),
      (init_memory_tables_loop P n i l dev).2.2.codec.s_cfg = dev.codec.s_cfg := by
  intro n
  induction n with
  | zero => intro i l dev; rfl
  | succ n ih =>
    intro i l dev
    rw [init_memory_tables_loop]
    cases hapi : dev.codec.cd.api with
    | none => simp [API_CALL, hapi]
    | some fn =>
      simp only [API_CALL, hapi, api_call_codec, alloc_codec]
      split_ifs with h1 h2 h3 h4 h5
      · rfl
      · rfl
      · rfl
      · simp [alloc_codec, api_call_codec]
      · simp [alloc_codec, api_call_codec]
      · split
        · rw [ih]; simp [alloc_codec, api_call_codec]
        · rw [ih]; simp [alloc_codec, api_call_codec]
        · rw [ih]; simp [set_in_buff, alloc_codec, api_call_codec]
        · rw [ih]; simp [set_out_buff, alloc_codec, api_call_codec]
        · simp [alloc_codec, api_call_codec]

theorem err_s_cfg (ret : Int) (l : MemLocals) (dev : comp_dev σ) :
    (init_memory_tables_err ret l dev).2.codec.s_cfg = dev.codec.s_cfg := by
  unfold init_memory_tables_err
  simp only []
  split_ifs <;> rfl

theorem init_memory_tables_s_cfg (P : Platform σ) (dev : comp_dev σ) :
    (init_memory_tables P dev).2.codec.s_cfg = dev.codec.s_cfg := by
  unfold init_memory_tables
  cases hapi : dev.codec.cd.api with
  | none => simp [API_CALL, hapi]
  | some fn =>
    simp only [API_CALL, hapi, api_call_codec]
    split_ifs with h1 h2
    · rw [err_s_cfg]; rfl
    · rw [err_s_cfg]; rfl
    · split
      · simp only []; rw [loop_s_cfg]; rfl
      · rw [err_s_cfg, loop_s_cfg]; rfl
      · simp only []; rw [loop_s_cfg]; rfl


theorem loop_cd (P : Platform σ) :
    ∀ (n : Nat) (i : Int) (l : MemLocals) (dev : comp_dev σ),
      (init_memory_tables_loop P n i l dev).2.2.codec.cd = dev.codec.cd := by
  intro n
  induction n with
  | zero => intro i l dev; rfl
  | succ n ih =>
    intro i l dev
    rw [init_memory_tables_loop]
    cases hapi : dev.codec.cd.api with
    | none => simp [API_CALL, hapi]
    | some fn =>
      simp only [API_CALL, hapi, api_call_codec, alloc_codec]
      split_ifs with h1 h2 h3 h4 h5
      · rfl
      · rfl
      · rfl
      · simp [alloc_codec, api_call_codec]
      · simp [alloc_codec, api_call_codec]
      · split
        · rw [ih]; simp [alloc_codec, api_call_codec]
        · rw [ih]; simp [alloc_codec, api_call_codec]
        · rw [ih]; simp [set_in_buff, alloc_codec, api_call_codec]
        · rw [ih]; simp [set_out_buff, alloc_codec, api_call_codec]
        · simp [alloc_codec, api_call_codec]

theorem err_cd (ret : Int) (l : MemLocals) (dev : comp_dev σ) :
    (init_memory_tables_err ret l dev).2.codec.cd = dev.codec.cd := by
  unfold init_memory_tables_err
  simp only []
  split_ifs <;> rfl

theorem init_memory_tables_cd (P : Platform σ) (dev : comp_dev σ) :
    (init_memory_tables P dev).2.codec.cd = dev.codec.cd := by
  unfold init_memory_tables
  cases hapi : dev.codec.cd.api with
  | none => simp [API_CALL, hapi]
  | some fn =>
    simp only [API_CALL, hapi, api_call_codec]
    split_ifs with h1 h2
    · rw [err_cd]; rfl
    · rw [err_cd]; rfl
    · split
      · simp only []; rw [loop_cd]; rfl
      · rw [err_cd, loop_cd]; rfl
      · simp only []; rw [loop_cd]; rfl


theorem prepare_free_s_cfg (r : Int) (dev : comp_dev σ) :
    (prepare_free r dev).2.codec.s_cfg = dev.codec.s_cfg := rfl

/-- After `init_memory_tables` has returned `t`, the rest of
`cadence_codec_prepare` does not write the setup blob. -/
theorem prepare_tail_s_cfg (P : Platform σ) (fn : ApiFn) (t : Exit × comp_dev σ)
    (hapi : t.2.codec.cd.api = some fn) :
    (match t.1 with
      | Exit.ret r =>
        if r ≠ LIB_NO_ERROR then prepare_free r t.2
        else
          match API_CALL P (ApiCmd.XA_API_CMD_INIT InitType.XA_CMD_TYPE_INIT_PROCESS)
              t.2 with
          | none => (Exit.fault, t.2)
          | some ip =>
            if ip.1.ret ≠ LIB_NO_ERROR then prepare_free ip.1.ret ip.2
            else
              match API_CALL P
                  (ApiCmd.XA_API_CMD_INIT InitType.XA_CMD_TYPE_INIT_DONE_QUERY) ip.2 with
              | none => (Exit.fault, ip.2)
              | some q =>
                if q.1.ret ≠ LIB_NO_ERROR then prepare_free q.1.ret q.2
                else if int32 q.1.out = 0 then prepare_free (- EINVAL) q.2
                else (Exit.ret 0, q.2)
      | x => (x, t.2)).2.codec.s_cfg = t.2.codec.s_cfg := by
  obtain ⟨e, d⟩ := t
  cases e with
  | ret r =>
    have hapi2 : d.codec.cd.api = some fn := hapi
    simp only [API_CALL, hapi2, api_call_codec]
    split_ifs <;> rfl
  | hang => rfl
  | fault => rfl

theorem prepare_memory_s_cfg (P : Platform σ) (dev : comp_dev σ) :
    (prepare_memory P dev).2.codec.s_cfg = dev.codec.s_cfg := by
  unfold prepare_memory
  cases hapi : dev.codec.cd.api with
  | none => simp [API_CALL, hapi]
  | some fn =>
    have hset : ∀ (p : Ptr) (d : comp_dev σ), (set_mem_tabs p d).codec.cd.api = d.codec.cd.api :=
      fun _ _ => rfl
    simp only [API_CALL, hapi, api_call_codec, alloc_codec, hset]
    split
    · rfl
    · split
      · simp [set_mem_tabs, alloc_codec, api_call_codec]
      · split
        · simp [prepare_free_s_cfg, set_mem_tabs, alloc_codec, api_call_codec]
        · have h := prepare_tail_s_cfg P fn (init_memory_tables P
            (api_call P fn
              (ApiCmd.XA_API_CMD_SET_MEMTABS_PTR
                (codec_allocate_memory P
                  (uint32 (int32 (api_call P fn ApiCmd.XA_API_CMD_GET_MEMTABS_SIZE dev).1.out)) 4
                  (api_call P fn ApiCmd.XA_API_CMD_GET_MEMTABS_SIZE dev).2).1)
              (set_mem_tabs
                (codec_allocate_memory P
                  (uint32 (int32 (api_call P fn ApiCmd.XA_API_CMD_GET_MEMTABS_SIZE dev).1.out)) 4
                  (api_call P fn ApiCmd.XA_API_CMD_GET_MEMTABS_SIZE dev).2).1
                (codec_allocate_memory P
                  (uint32 (int32 (api_call P fn ApiCmd.XA_API_CMD_GET_MEMTABS_SIZE dev).1.out)) 4
                  (api_call P fn ApiCmd.XA_API_CMD_GET_MEMTABS_SIZE dev).2).2)).2)
            (by rw [init_memory_tables_cd]; simpa [set_mem_tabs, alloc_codec, api_call_codec]
              using hapi)
          simp only [API_CALL] at h
          rw [h, init_memory_tables_s_cfg]
          simp [set_mem_tabs, alloc_codec, api_call_codec]


/-- The shape of `cadence_codec_prepare` outside the PREPARED state with a
bound capability. -/
theorem prepare_unfold (P : Platform σ) (fuel : Nat) (dev : comp_dev σ) (fn : ApiFn)
    (hstate : dev.codec.state ≠ codec_state.CODEC_PREPARED)
    (hapi : dev.codec.cd.api = some fn) :
    cadence_codec_prepare P fuel dev =
      if (api_call P fn pre_config_cmd dev).1.ret ≠ LIB_NO_ERROR then
        (Exit.ret (api_call P fn pre_config_cmd dev).1.ret, (api_call P fn pre_config_cmd dev).2)
      else if dev.codec.s_cfg.avail = false ∧ dev.codec.s_cfg.size = 0 then
        (Exit.ret (- EIO), (api_call P fn pre_config_cmd dev).2)
      else
        prepare_from_config P fuel
          (if dev.codec.s_cfg.avail = false then
            set_s_cfg_avail true (api_call P fn pre_config_cmd dev).2
          else (api_call P fn pre_config_cmd dev).2) := by
  unfold cadence_codec_prepare prepare_from_config
  rw [if_neg hstate]
  simp only [API_CALL, hapi, api_call_codec, pre_config_cmd]

/-- A run of `prepare_from_config` that returns `0` leaves the setup blob as
it found it but for the cleared availability flag. -/
theorem prepare_from_config_s_cfg (P : Platform σ) (fuel : Nat) (d1 : comp_dev σ)
    (h0 : (prepare_from_config P fuel d1).1 = Exit.ret 0) :
    (prepare_from_config P fuel d1).2.codec.s_cfg = { d1.codec.s_cfg with avail := false } := by
  unfold prepare_from_config at h0 ⊢
  simp only [] at h0 ⊢
  have hc := apply_config_codec P fuel codec_cfg_type.CODEC_CFG_SETUP d1
  revert h0 hc
  generalize apply_config P fuel codec_cfg_type.CODEC_CFG_SETUP d1 = c
  obtain ⟨ec, dc⟩ := c
  intro h0 hc
  simp only [] at hc
  cases ec with
  | hang => exact absurd h0 (by simp)
  | fault => exact absurd h0 (by simp)
  | ret rc =>
    by_cases hrc : rc ≠ 0
    · simp only [] at h0
      rw [if_pos hrc] at h0
      injection h0 with h0
      exact absurd h0 hrc
    · simp only [] at h0 ⊢
      rw [if_neg hrc] at h0 ⊢
      have hu := update_stream_params_codec P (set_s_cfg_avail false dc)
      revert h0 hu
      generalize update_stream_params P (set_s_cfg_avail false dc) = u
      obtain ⟨eu, du⟩ := u
      intro h0 hu
      simp only [] at hu
      cases eu with
      | hang => exact absurd h0 (by simp)
      | fault => exact absurd h0 (by simp)
      | ret ru =>
        by_cases hru : ru ≠ 0
        · simp only [] at h0
          rw [if_pos hru] at h0
          injection h0 with h0
          exact absurd h0 hru
        · simp only [] at h0 ⊢
          rw [if_neg hru]
          rw [prepare_memory_s_cfg, hu]
          simp [set_s_cfg_avail, hc]

/-- A successful `cadence_codec_prepare` that starts outside the PREPARED state
returns with the availability flag of the setup blob cleared and with its size
and data as they were. -/
theorem prepare_success_s_cfg (P : Platform σ) (fuel : Nat) (dev : comp_dev σ)
    (hstate : dev.codec.state ≠ codec_state.CODEC_PREPARED)
    (h0 : (cadence_codec_prepare P fuel dev).1 = Exit.ret 0) :
    (cadence_codec_prepare P fuel dev).2.codec.s_cfg.avail = false ∧
    (cadence_codec_prepare P fuel dev).2.codec.s_cfg.size = dev.codec.s_cfg.size ∧
    (cadence_codec_prepare P fuel dev).2.codec.s_cfg.data = dev.codec.s_cfg.data := by
  cases hapi : dev.codec.cd.api with
  | none =>
    unfold cadence_codec_prepare at h0
    rw [if_neg hstate] at h0
    simp [API_CALL, hapi] at h0
  | some fn =>
    rw [prepare_unfold P fuel dev fn hstate hapi] at h0 ⊢
    split at h0
    · rename_i hr
      rw [if_pos hr]
      injection h0 with h0
      exact absurd h0 hr
    · rename_i hr
      rw [if_neg hr]
      split at h0
      · exact absurd h0 (by simp [ EIO])
      · rename_i hcfg
        rw [if_neg hcfg]
        rw [prepare_from_config_s_cfg P fuel _ h0]
        split_ifs <;> simp [set_s_cfg_avail, api_call]

/-! ## `init_memory_tables`: the successful negotiation -/

/-- One iteration of the loop for a block whose negotiation succeeds on the
run. -/
theorem loop_step_run (P : Platform σ) (fn : ApiFn) (n : Nat) (i : Int)
    (l : MemLocals) (dev : comp_dev σ)
    (hapi : dev.codec.cd.api = some fn)
    (hok : block_ok P fn i dev) :
    init_memory_tables_loop P (n + 1) i l dev =
      match role_of P (row_at P fn i dev) with
      | MemType.XA_MEMTYPE_SCRATCH =>
        init_memory_tables_loop P n (i + 1) { l with scratch := dev.heap.count + 1 }
          (block_next P fn i dev)
      | MemType.XA_MEMTYPE_PERSIST =>
        init_memory_tables_loop P n (i + 1) { l with persistent := dev.heap.count + 1 }
          (block_next P fn i dev)
      | MemType.XA_MEMTYPE_INPUT =>
        init_memory_tables_loop P n (i + 1) l (block_next P fn i dev)
      | MemType.XA_MEMTYPE_OUTPUT =>
        init_memory_tables_loop P n (i + 1) l (block_next P fn i dev)
      | MemType.other => (some (Exit.ret (- EINVAL)), l, block_next P fn i dev) := by
  obtain ⟨hT, hS, hA, hM, hP, _⟩ := hok
  have hM2 : P.alloc_ok (api_call P fn (ApiCmd.XA_API_CMD_GET_MEM_INFO_ALIGNMENT i)
      (api_call P fn (ApiCmd.XA_API_CMD_GET_MEM_INFO_SIZE i)
        (api_call P fn (ApiCmd.XA_API_CMD_GET_MEM_INFO_TYPE i) dev).2).2).2.heap
      (size_of (row_at P fn i dev)) (uint32 (int32 (row_at P fn i dev).alignment)) = true := hM
  have hptr1 : (codec_allocate_memory P (size_of (row_at P fn i dev))
      (uint32 (int32 (row_at P fn i dev).alignment))
      (api_call P fn (ApiCmd.XA_API_CMD_GET_MEM_INFO_ALIGNMENT i)
        (api_call P fn (ApiCmd.XA_API_CMD_GET_MEM_INFO_SIZE i)
          (api_call P fn (ApiCmd.XA_API_CMD_GET_MEM_INFO_TYPE i) dev).2).2).2).1
      = dev.heap.count + 1 := by
    unfold codec_allocate_memory
    rw [if_pos hM2]
    rfl
  rw [init_memory_tables_loop]
  simp only [API_CALL, hapi, api_call_codec, alloc_codec]
  rw [if_neg (fun h => h hT), if_neg (fun h => h hS), if_neg (fun h => h hA)]
  have hrow_s : uint32 (int32 (api_call P fn (ApiCmd.XA_API_CMD_GET_MEM_INFO_SIZE i)
      (api_call P fn (ApiCmd.XA_API_CMD_GET_MEM_INFO_TYPE i) dev).2).1.out)
      = size_of (row_at P fn i dev) := rfl
  have hrow_a : (api_call P fn (ApiCmd.XA_API_CMD_GET_MEM_INFO_ALIGNMENT i)
      (api_call P fn (ApiCmd.XA_API_CMD_GET_MEM_INFO_SIZE i)
        (api_call P fn (ApiCmd.XA_API_CMD_GET_MEM_INFO_TYPE i) dev).2).2).1.out
      = (row_at P fn i dev).alignment := rfl
  have hrow_t : P.memtype (uint32 (int32
      (api_call P fn (ApiCmd.XA_API_CMD_GET_MEM_INFO_TYPE i) dev).1.out))
      = role_of P (row_at P fn i dev) := rfl
  simp only [hrow_s, hrow_a, hrow_t, hptr1]
  rw [if_neg (by simp [NULL]), if_neg (fun h => h hP)]
  cases hr : role_of P (row_at P fn i dev) <;> simp [block_next, hr, after_block]


theorem after_block_codec (P : Platform σ) (fn : ApiFn) (i : Int) (t : MemTab)
    (dev : comp_dev σ) : (after_block P fn i t dev).codec = dev.codec := by
  simp [after_block, api_call_codec, alloc_codec]

theorem after_block_count (P : Platform σ) (fn : ApiFn) (i : Int) (t : MemTab)
    (dev : comp_dev σ)
    (halloc : P.alloc_ok dev.heap (size_of t) (uint32 (int32 t.alignment)) = true) :
    (after_block P fn i t dev).heap.count = dev.heap.count + 1 := by
  simp [after_block, api_call, codec_allocate_memory, halloc, Heap.served]

theorem after_block_log (P : Platform σ) (fn : ApiFn) (i : Int) (t : MemTab)
    (dev : comp_dev σ)
    (halloc : P.alloc_ok dev.heap (size_of t) (uint32 (int32 t.alignment)) = true) :
    (after_block P fn i t dev).log
      = dev.log ++ block_events fn dev.codec.cd.self i t (dev.heap.count + 1) := by
  simp [after_block, api_call, codec_allocate_memory, halloc, block_events]

theorem block_next_cd (P : Platform σ) (fn : ApiFn) (i : Int) (dev : comp_dev σ) :
    (block_next P fn i dev).codec.cd = dev.codec.cd := by
  unfold block_next
  split <;> simp [set_in_buff, set_out_buff, after_block_codec]

theorem block_next_count (P : Platform σ) (fn : ApiFn) (i : Int) (dev : comp_dev σ)
    (hok : block_ok P fn i dev) :
    (block_next P fn i dev).heap.count = dev.heap.count + 1 := by
  have h := after_block_count P fn i (row_at P fn i dev) dev hok.2.2.2.1
  unfold block_next
  split <;> simpa [set_in_buff, set_out_buff] using h

theorem block_next_log (P : Platform σ) (fn : ApiFn) (i : Int) (dev : comp_dev σ)
    (hok : block_ok P fn i dev) :
    (block_next P fn i dev).log
      = dev.log ++ block_events fn dev.codec.cd.self i (row_at P fn i dev)
          (dev.heap.count + 1) := by
  have h := after_block_log P fn i (row_at P fn i dev) dev hok.2.2.2.1
  unfold block_next
  split <;> simpa [set_in_buff, set_out_buff] using h

theorem block_next_in (P : Platform σ) (fn : ApiFn) (i : Int) (dev : comp_dev σ) :
    ((block_next P fn i dev).codec.cpd.in_buff, (block_next P fn i dev).codec.cpd.in_buff_size)
      = (if role_of P (row_at P fn i dev) = MemType.XA_MEMTYPE_INPUT
          then (dev.heap.count + 1, size_of (row_at P fn i dev))
          else (dev.codec.cpd.in_buff, dev.codec.cpd.in_buff_size)) := by
  unfold block_next
  cases hr : role_of P (row_at P fn i dev) <;>
    simp [set_in_buff, set_out_buff, after_block_codec]

theorem block_next_out (P : Platform σ) (fn : ApiFn) (i : Int) (dev : comp_dev σ) :
    ((block_next P fn i dev).codec.cpd.out_buff,
      (block_next P fn i dev).codec.cpd.out_buff_size)
      = (if role_of P (row_at P fn i dev) = MemType.XA_MEMTYPE_OUTPUT
          then (dev.heap.count + 1, size_of (row_at P fn i dev))
          else (dev.codec.cpd.out_buff, dev.codec.cpd.out_buff_size)) := by
  unfold block_next
  cases hr : role_of P (row_at P fn i dev) <;>
    simp [set_in_buff, set_out_buff, after_block_codec]

/-- The loop over `n` blocks whose negotiation succeeds on the run: it runs to
its end, its events are those of `table_events` for the table reported on the
run, and the input and output buffers are those of `bound_buffer`. -/
theorem loop_success_run (P : Platform σ) (fn : ApiFn) :
    ∀ (n : Nat) (i : Int) (l : MemLocals) (dev : comp_dev σ),
      dev.codec.cd.api = some fn →
      run_ok P fn n i dev →
      (init_memory_tables_loop P n i l dev).1 = none ∧
      (init_memory_tables_loop P n i l dev).2.2.log
        = dev.log ++ table_events fn dev.codec.cd.self (run_table P fn n i dev) i
            dev.heap.count ∧
      ((init_memory_tables_loop P n i l dev).2.2.codec.cpd.in_buff,
        (init_memory_tables_loop P n i l dev).2.2.codec.cpd.in_buff_size)
        = bound_buffer P MemType.XA_MEMTYPE_INPUT (run_table P fn n i dev) dev.heap.count
            (dev.codec.cpd.in_buff, dev.codec.cpd.in_buff_size) ∧
      ((init_memory_tables_loop P n i l dev).2.2.codec.cpd.out_buff,
        (init_memory_tables_loop P n i l dev).2.2.codec.cpd.out_buff_size)
        = bound_buffer P MemType.XA_MEMTYPE_OUTPUT (run_table P fn n i dev) dev.heap.count
            (dev.codec.cpd.out_buff, dev.codec.cpd.out_buff_size) := by
  intro n
  induction n with
  | zero =>
    intro i l dev _ _
    simp [init_memory_tables_loop, run_table, table_events, bound_buffer]
  | succ n ih =>
    intro i l dev hapi hrun
    obtain ⟨hok, hrest⟩ := hrun
    have hapi2 : (block_next P fn i dev).codec.cd.api = some fn := by
      rw [block_next_cd]; exact hapi
    have hgen : ∀ l2 : MemLocals,
        (init_memory_tables_loop P n (i + 1) l2 (block_next P fn i dev)).1 = none ∧
        (init_memory_tables_loop P n (i + 1) l2 (block_next P fn i dev)).2.2.log
          = dev.log ++ table_events fn dev.codec.cd.self (run_table P fn (n + 1) i dev) i
              dev.heap.count ∧
        ((init_memory_tables_loop P n (i + 1) l2 (block_next P fn i dev)).2.2.codec.cpd.in_buff,
          (init_memory_tables_loop P n (i + 1) l2
            (block_next P fn i dev)).2.2.codec.cpd.in_buff_size)
          = bound_buffer P MemType.XA_MEMTYPE_INPUT (run_table P fn (n + 1) i dev)
              dev.heap.count (dev.codec.cpd.in_buff, dev.codec.cpd.in_buff_size) ∧
        ((init_memory_tables_loop P n (i + 1) l2 (block_next P fn i dev)).2.2.codec.cpd.out_buff,
          (init_memory_tables_loop P n (i + 1) l2
            (block_next P fn i dev)).2.2.codec.cpd.out_buff_size)
          = bound_buffer P MemType.XA_MEMTYPE_OUTPUT (run_table P fn (n + 1) i dev)
              dev.heap.count (dev.codec.cpd.out_buff, dev.codec.cpd.out_buff_size) := by
      intro l2
      have h := ih (i + 1) l2 (block_next P fn i dev) hapi2 hrest
      rw [block_next_cd, block_next_count P fn i dev hok, block_next_log P fn i dev hok,
        block_next_in, block_next_out] at h
      refine ⟨h.1, ?_, ?_, ?_⟩
      · rw [h.2.1]
        simp [run_table, table_events, List.append_assoc]
      · rw [h.2.2.1]
        simp [run_table, bound_buffer]
      · rw [h.2.2.2]
        simp [run_table, bound_buffer]
    rw [loop_step_run P fn n i l dev hapi hok]
    cases hr : role_of P (row_at P fn i dev) with
    | other => exact absurd hr hok.2.2.2.2.2
    | XA_MEMTYPE_SCRATCH => exact hgen _
    | XA_MEMTYPE_PERSIST => exact hgen _
    | XA_MEMTYPE_INPUT => exact hgen _
    | XA_MEMTYPE_OUTPUT => exact hgen _

theorem bound_buffer_none (P : Platform σ) (role : MemType) :
    ∀ (ts : List MemTab) (count : Nat) (b : Ptr × Nat),
      (∀ t ∈ ts, role_of P t ≠ role) → bound_buffer P role ts count b = b := by
  intro ts
  induction ts with
  | nil => intro count b _; rfl
  | cons a ts ih =>
    intro count b h
    have ha : role_of P a ≠ role := h a (by simp)
    rw [bound_buffer, if_neg ha]
    exact ih _ _ (fun t ht => h t (List.mem_cons_of_mem _ ht))

/-- The buffer bound to `role` is the block of the last row of that role. -/
theorem bound_buffer_last (P : Platform σ) (role : MemType) :
    ∀ (ts : List MemTab) (count : Nat) (b : Ptr × Nat) (k : Nat) (t : MemTab),
      ts[k]? = some t → role_of P t = role →
      (∀ j t2, k < j → ts[j]? = some t2 → role_of P t2 ≠ role) →
      bound_buffer P role ts count b = (count + k + 1, size_of t) := by
  intro ts
  induction ts with
  | nil => intro count b k t hk; simp at hk
  | cons a ts ih =>
    intro count b k t hk hrole hlast
    cases k with
    | zero =>
      simp at hk
      subst hk
      rw [bound_buffer, if_pos hrole]
      rw [bound_buffer_none P role ts _ _ ?_]
      intro t2 ht2
      obtain ⟨j, hj⟩ := List.getElem?_of_mem ht2
      exact hlast (j + 1) t2 (by omega) (by simpa using hj)
    | succ k =>
      simp at hk
      rw [bound_buffer]
      rw [ih (count + 1) _ k t hk hrole
        (fun j t2 hj h2 => hlast (j + 1) t2 (by omega) (by simpa using h2))]
      congr 1
      omega




theorem run_table_length (P : Platform σ) (fn : ApiFn) :
    ∀ (n : Nat) (i : Int) (dev : comp_dev σ), (run_table P fn n i dev).length = n := by
  intro n
  induction n with
  | zero => intro i dev; rfl
  | succ n ih => intro i dev; simp [run_table, ih]

/-- C19: for every block count `N` and every run of the negotiation in which
the init command, the count query, and for each index the three queries, the
allocation and set-memory-pointer succeed and the reported roles are
recognized (conditions on the calls and allocations of the run only),
`init_memory_tables` returns `0`. Its events are the init command, the count
query and then, for each index `0..N-1` in ascending order, once: the queries
of role, size and alignment, the allocation of a block with the size and
alignment just reported, and set-memory-pointer with that index and that
block. On return the input (output) buffer pointer and size are those of the
last row of the reported table whose role is input (output). -/
theorem init_memory_tables_success (P : Platform σ) (dev : comp_dev σ) (fn : ApiFn) (N : Nat)
    (hapi : dev.codec.cd.api = some fn)
    (hinit : (api_call P fn (ApiCmd.XA_API_CMD_INIT
      InitType.XA_CMD_TYPE_INIT_API_POST_CONFIG_PARAMS) dev).1.ret = LIB_NO_ERROR)
    (hcount : (api_call P fn ApiCmd.XA_API_CMD_GET_N_MEMTABS
      (api_call P fn (ApiCmd.XA_API_CMD_INIT
        InitType.XA_CMD_TYPE_INIT_API_POST_CONFIG_PARAMS) dev).2).1.ret = LIB_NO_ERROR)
    (hN : int32 (api_call P fn ApiCmd.XA_API_CMD_GET_N_MEMTABS
      (api_call P fn (ApiCmd.XA_API_CMD_INIT
        InitType.XA_CMD_TYPE_INIT_API_POST_CONFIG_PARAMS) dev).2).1.out = N)
    (hrun : run_ok P fn N 0 (after_count P fn dev)) :
    (init_memory_tables P dev).1 = Exit.ret 0 ∧
    (init_memory_tables P dev).2.log = dev.log ++
      [Event.call fn dev.codec.cd.self
        (ApiCmd.XA_API_CMD_INIT InitType.XA_CMD_TYPE_INIT_API_POST_CONFIG_PARAMS),
       Event.call fn dev.codec.cd.self ApiCmd.XA_API_CMD_GET_N_MEMTABS] ++
      table_events fn dev.codec.cd.self (run_table P fn N 0 (after_count P fn dev)) 0
        dev.heap.count ∧
    (run_table P fn N 0 (after_count P fn dev)).length = N ∧
    (∀ k t, (run_table P fn N 0 (after_count P fn dev))[k]? = some t →
      role_of P t = MemType.XA_MEMTYPE_INPUT →
      (∀ j t2, k < j → (run_table P fn N 0 (after_count P fn dev))[j]? = some t2 →
        role_of P t2 ≠ MemType.XA_MEMTYPE_INPUT) →
      (init_memory_tables P dev).2.codec.cpd.in_buff = dev.heap.count + k + 1 ∧
      (init_memory_tables P dev).2.codec.cpd.in_buff_size = size_of t) ∧
    (∀ k t, (run_table P fn N 0 (after_count P fn dev))[k]? = some t →
      role_of P t = MemType.XA_MEMTYPE_OUTPUT →
      (∀ j t2, k < j → (run_table P fn N 0 (after_count P fn dev))[j]? = some t2 →
        role_of P t2 ≠ MemType.XA_MEMTYPE_OUTPUT) →
      (init_memory_tables P dev).2.codec.cpd.out_buff = dev.heap.count + k + 1 ∧
      (init_memory_tables P dev).2.codec.cpd.out_buff_size = size_of t) := by
  have hL := loop_success_run P fn N 0 ⟨NULL, NULL⟩ (after_count P fn dev) hapi hrun
  have hNat : (int32 (api_call P fn ApiCmd.XA_API_CMD_GET_N_MEMTABS
      (api_call P fn (ApiCmd.XA_API_CMD_INIT
        InitType.XA_CMD_TYPE_INIT_API_POST_CONFIG_PARAMS) dev).2).1.out).toNat = N := by
    rw [hN]; simp
  have hres : init_memory_tables P dev = (Exit.ret 0,
      (init_memory_tables_loop P N 0 ⟨NULL, NULL⟩ (after_count P fn dev)).2.2) := by
    unfold init_memory_tables
    simp only [API_CALL, hapi, api_call_codec]
    rw [if_neg (fun h => h hinit), if_neg (fun h => h hcount)]
    have hL1 : (init_memory_tables_loop P N 0 ⟨NULL, NULL⟩
        (api_call P fn ApiCmd.XA_API_CMD_GET_N_MEMTABS
          (api_call P fn (ApiCmd.XA_API_CMD_INIT
            InitType.XA_CMD_TYPE_INIT_API_POST_CONFIG_PARAMS) dev).2).2).1 = none := hL.1
    simp only [hNat, hL1]
    rfl
  have hcnt : (after_count P fn dev).heap.count = dev.heap.count := rfl
  have hcodec : (after_count P fn dev).codec = dev.codec := rfl
  have hlog : (after_count P fn dev).log = dev.log ++
      [Event.call fn dev.codec.cd.self
        (ApiCmd.XA_API_CMD_INIT InitType.XA_CMD_TYPE_INIT_API_POST_CONFIG_PARAMS),
       Event.call fn dev.codec.cd.self ApiCmd.XA_API_CMD_GET_N_MEMTABS] := by
    simp [after_count, api_call]
  rw [hres]
  rw [hcnt, hcodec, hlog] at hL
  refine ⟨rfl, hL.2.1, run_table_length P fn N 0 _, ?_, ?_⟩
  · intro k t hk hrole hlast
    have hb := bound_buffer_last P MemType.XA_MEMTYPE_INPUT _ dev.heap.count
      (dev.codec.cpd.in_buff, dev.codec.cpd.in_buff_size) k t hk hrole hlast
    have h := hL.2.2.1
    rw [hb] at h
    exact ⟨congrArg Prod.fst h, congrArg Prod.snd h⟩
  · intro k t hk hrole hlast
    have hb := bound_buffer_last P MemType.XA_MEMTYPE_OUTPUT _ dev.heap.count
      (dev.codec.cpd.out_buff, dev.codec.cpd.out_buff_size) k t hk hrole hlast
    have h := hL.2.2.2
    rw [hb] at h
    exact ⟨congrArg Prod.fst h, congrArg Prod.snd h⟩

/-- Witness for C19: the library `api_ordered`, which answers each call with
no-error only at its position in the protocol, on the device `ready_dev`, where
two blocks are live. The three blocks get the addresses 3, 4, 5 with the sizes
reported for their indexes; the input buffer is the block of the last input
row (index 2, address 5) and the output buffer the block of index 1. -/
theorem init_memory_tables_success_witness :
    (init_memory_tables platform_ordered (ready_dev no_cfg no_cfg)).1 = Exit.ret 0 ∧
    memory_events (init_memory_tables platform_ordered (ready_dev no_cfg no_cfg)).2.log
      = [Event.alloc 128 8 3, Event.alloc 256 8 4, Event.alloc 384 8 5] ∧
    ((init_memory_tables platform_ordered (ready_dev no_cfg no_cfg)).2.codec.cpd.in_buff
        = 2 + 2 + 1 ∧
     (init_memory_tables platform_ordered (ready_dev no_cfg no_cfg)).2.codec.cpd.in_buff_size
        = 384) ∧
    ((init_memory_tables platform_ordered (ready_dev no_cfg no_cfg)).2.codec.cpd.out_buff
        = 2 + 1 + 1 ∧
     (init_memory_tables platform_ordered (ready_dev no_cfg no_cfg)).2.codec.cpd.out_buff_size
        = 256) :=
  have htbl : run_table platform_ordered ApiFn.xa_mp3_dec 3 0
      (after_count platform_ordered ApiFn.xa_mp3_dec (ready_dev no_cfg no_cfg))
      = [⟨2, 128, 8⟩, ⟨3, 256, 8⟩, ⟨2, 384, 8⟩] := by decide
  have h := init_memory_tables_success platform_ordered (ready_dev no_cfg no_cfg)
    ApiFn.xa_mp3_dec 3 rfl rfl rfl rfl
    ⟨⟨rfl, rfl, rfl, rfl, rfl, by decide⟩, ⟨rfl, rfl, rfl, rfl, rfl, by decide⟩,
      ⟨rfl, rfl, rfl, rfl, rfl, by decide⟩, trivial⟩
  ⟨h.1, by decide,
    h.2.2.2.1 2 ⟨2, 384, 8⟩ (by rw [htbl]; rfl) (by decide) (fun j t2 hj h2 => by
      rw [htbl] at h2
      have h3 : 3 ≤ j := hj
      have hnone : ([⟨2, 128, 8⟩, ⟨3, 256, 8⟩, ⟨2, 384, 8⟩] : List MemTab)[j]? = none :=
        List.getElem?_eq_none h3
      rw [hnone] at h2
      exact Option.noConfusion h2),
    h.2.2.2.2 1 ⟨3, 256, 8⟩ (by rw [htbl]; rfl) (by decide) (fun j t2 hj h2 => by
      rw [htbl] at h2
      match j, hj, h2 with
      | 2, _, h2 => simp at h2; subst h2; decide
      | j + 3, _, h2 => simp at h2)⟩

/-! ## `cadence_codec_reset`: theorems -/

theorem log_grows_refl (a : List Event) : log_grows a a := ⟨[], by simp⟩

theorem log_grows_step {a b : List Event} (l : List Event) (h : log_grows a b) :
    log_grows a (b ++ l) := by
  obtain ⟨r, hr⟩ := h
  exact ⟨r ++ l, by rw [hr, List.append_assoc]⟩

theorem log_grows_trans {a b c : List Event} (h1 : log_grows a b) (h2 : log_grows b c) :
    log_grows a c := by
  obtain ⟨r, hr⟩ := h1
  obtain ⟨t, ht⟩ := h2
  exact ⟨r ++ t, by rw [ht, hr, List.append_assoc]⟩

theorem heap_after_refl (h : Heap) : heap_after h h :=
  ⟨fun _ hp => Or.inl hp, Nat.le_refl _⟩

theorem set_in_buff_log (p : Ptr) (n : Nat) (dev : comp_dev σ) :
    (set_in_buff p n dev).log = dev.log := rfl

theorem set_out_buff_log (p : Ptr) (n : Nat) (dev : comp_dev σ) :
    (set_out_buff p n dev).log = dev.log := rfl

theorem update_stream_params_log_grows (P : Platform σ) (dev : comp_dev σ) :
    log_grows dev.log (update_stream_params P dev).2.log := by
  unfold update_stream_params
  cases hapi : dev.codec.cd.api with
  | none => simp only [API_CALL, hapi]; exact log_grows_refl _
  | some fn =>
    simp only [API_CALL, hapi, api_call_codec]
    split_ifs <;> simp only [api_call_log] <;>
      repeat (first | exact log_grows_refl _ | apply log_grows_step)

theorem loop_log_grows (P : Platform σ) :
    ∀ (n : Nat) (i : Int) (l : MemLocals) (dev : comp_dev σ),
      log_grows dev.log (init_memory_tables_loop P n i l dev).2.2.log := by
  intro n
  induction n with
  | zero => intro i l dev; exact log_grows_refl _
  | succ n ih =>
    intro i l dev
    rw [init_memory_tables_loop]
    cases hapi : dev.codec.cd.api with
    | none => simp only [API_CALL, hapi]; exact log_grows_refl _
    | some fn =>
      simp only [API_CALL, hapi, api_call_codec, alloc_codec]
      split_ifs with h1 h2 h3 h4 h5
      · simp only [api_call_log]
        repeat (first | exact log_grows_refl _ | apply log_grows_step)
      · simp only [api_call_log]
        repeat (first | exact log_grows_refl _ | apply log_grows_step)
      · simp only [api_call_log]
        repeat (first | exact log_grows_refl _ | apply log_grows_step)
      · simp only [api_call_log, alloc_log]
        repeat (first | exact log_grows_refl _ | apply log_grows_step)
      · simp only [api_call_log, alloc_log]
        repeat (first | exact log_grows_refl _ | apply log_grows_step)
      · split
        · refine log_grows_trans ?_ (ih _ _ _)
          simp only [api_call_log, alloc_log]
          repeat (first | exact log_grows_refl _ | apply log_grows_step)
        · refine log_grows_trans ?_ (ih _ _ _)
          simp only [api_call_log, alloc_log]
          repeat (first | exact log_grows_refl _ | apply log_grows_step)
        · refine log_grows_trans ?_ (ih _ _ _)
          simp only [set_in_buff_log, api_call_log, alloc_log]
          repeat (first | exact log_grows_refl _ | apply log_grows_step)
        · refine log_grows_trans ?_ (ih _ _ _)
          simp only [set_out_buff_log, api_call_log, alloc_log]
          repeat (first | exact log_grows_refl _ | apply log_grows_step)
        · simp only [api_call_log, alloc_log]
          repeat (first | exact log_grows_refl _ | apply log_grows_step)

theorem err_log_grows (ret : Int) (l : MemLocals) (dev : comp_dev σ) :
    log_grows dev.log (init_memory_tables_err ret l dev).2.log := by
  unfold init_memory_tables_err
  simp only []
  split_ifs <;> (try simp only [codec_free_memory]) <;>
    repeat (first | exact log_grows_refl _ | apply log_grows_step)

theorem init_memory_tables_log_grows (P : Platform σ) (dev : comp_dev σ) :
    log_grows dev.log (init_memory_tables P dev).2.log := by
  unfold init_memory_tables
  cases hapi : dev.codec.cd.api with
  | none => simp only [API_CALL, hapi]; exact log_grows_refl _
  | some fn =>
    simp only [API_CALL, hapi, api_call_codec]
    have h2 : log_grows dev.log (api_call P fn ApiCmd.XA_API_CMD_GET_N_MEMTABS
        (api_call P fn (ApiCmd.XA_API_CMD_INIT
          InitType.XA_CMD_TYPE_INIT_API_POST_CONFIG_PARAMS) dev).2).2.log := by
      simp only [api_call_log]
      repeat (first | exact log_grows_refl _ | apply log_grows_step)
    split_ifs with h1 h3
    · refine log_grows_trans ?_ (err_log_grows _ _ _)
      simp only [api_call_log]
      repeat (first | exact log_grows_refl _ | apply log_grows_step)
    · exact log_grows_trans h2 (err_log_grows _ _ _)
    · split
      · exact log_grows_trans h2 (loop_log_grows P _ _ _ _)
      · exact log_grows_trans (log_grows_trans h2 (loop_log_grows P _ _ _ _))
          (err_log_grows _ _ _)
      · exact log_grows_trans h2 (loop_log_grows P _ _ _ _)


theorem prepare_tail_log_grows (P : Platform σ) (t : Exit × comp_dev σ) :
    log_grows t.2.log
      (match t.1 with
      | Exit.ret r =>
        if r ≠ LIB_NO_ERROR then prepare_free r t.2
        else
          match API_CALL P (ApiCmd.XA_API_CMD_INIT InitType.XA_CMD_TYPE_INIT_PROCESS)
              t.2 with
          | none => (Exit.fault, t.2)
          | some ip =>
            if ip.1.ret ≠ LIB_NO_ERROR then prepare_free ip.1.ret ip.2
            else
              match API_CALL P
                  (ApiCmd.XA_API_CMD_INIT InitType.XA_CMD_TYPE_INIT_DONE_QUERY) ip.2 with
              | none => (Exit.fault, ip.2)
              | some q =>
                if q.1.ret ≠ LIB_NO_ERROR then prepare_free q.1.ret q.2
                else if int32 q.1.out = 0 then prepare_free (- EINVAL) q.2
                else (Exit.ret 0, q.2)
      | x => (x, t.2)).2.log := by
  obtain ⟨e, d⟩ := t
  cases e with
  | ret r =>
    cases hapi : d.codec.cd.api with
    | none =>
      simp only [API_CALL, hapi]
      split_ifs <;> (try simp only [prepare_free, codec_free_memory]) <;>
        repeat (first | exact log_grows_refl _ | apply log_grows_step)
    | some fn =>
      simp only [API_CALL, hapi, api_call_codec]
      split_ifs <;> (try simp only [prepare_free, codec_free_memory, api_call_log]) <;>
        repeat (first | exact log_grows_refl _ | apply log_grows_step)
  | hang => exact log_grows_refl _
  | fault => exact log_grows_refl _

theorem prepare_memory_log_grows (P : Platform σ) (dev : comp_dev σ) :
    log_grows dev.log (prepare_memory P dev).2.log := by
  unfold prepare_memory
  cases hapi : dev.codec.cd.api with
  | none => simp only [API_CALL, hapi]; exact log_grows_refl _
  | some fn =>
    have hset : ∀ (p : Ptr) (d : comp_dev σ), (set_mem_tabs p d).codec.cd.api = d.codec.cd.api :=
      fun _ _ => rfl
    have hsetlog : ∀ (p : Ptr) (d : comp_dev σ), (set_mem_tabs p d).log = d.log :=
      fun _ _ => rfl
    simp only [API_CALL, hapi, api_call_codec, alloc_codec, hset]
    split
    · simp only [api_call_log]
      repeat (first | exact log_grows_refl _ | apply log_grows_step)
    · split
      · simp only [hsetlog, api_call_log, alloc_log]
        repeat (first | exact log_grows_refl _ | apply log_grows_step)
      · have hpre : log_grows dev.log (api_call P fn
            (ApiCmd.XA_API_CMD_SET_MEMTABS_PTR
              (codec_allocate_memory P
                (uint32 (int32 (api_call P fn ApiCmd.XA_API_CMD_GET_MEMTABS_SIZE dev).1.out)) 4
                (api_call P fn ApiCmd.XA_API_CMD_GET_MEMTABS_SIZE dev).2).1)
            (set_mem_tabs
              (codec_allocate_memory P
                (uint32 (int32 (api_call P fn ApiCmd.XA_API_CMD_GET_MEMTABS_SIZE dev).1.out)) 4
                (api_call P fn ApiCmd.XA_API_CMD_GET_MEMTABS_SIZE dev).2).1
              (codec_allocate_memory P
                (uint32 (int32 (api_call P fn ApiCmd.XA_API_CMD_GET_MEMTABS_SIZE dev).1.out)) 4
                (api_call P fn ApiCmd.XA_API_CMD_GET_MEMTABS_SIZE dev).2).2)).2.log := by
          simp only [hsetlog, api_call_log, alloc_log]
          repeat (first | exact log_grows_refl _ | apply log_grows_step)
        split
        · simp only [prepare_free, codec_free_memory]
          exact log_grows_step _ hpre
        · have h := prepare_tail_log_grows P (init_memory_tables P
            (api_call P fn
              (ApiCmd.XA_API_CMD_SET_MEMTABS_PTR
                (codec_allocate_memory P
                  (uint32 (int32 (api_call P fn ApiCmd.XA_API_CMD_GET_MEMTABS_SIZE dev).1.out)) 4
                  (api_call P fn ApiCmd.XA_API_CMD_GET_MEMTABS_SIZE dev).2).1)
              (set_mem_tabs
                (codec_allocate_memory P
                  (uint32 (int32 (api_call P fn ApiCmd.XA_API_CMD_GET_MEMTABS_SIZE dev).1.out)) 4
                  (api_call P fn ApiCmd.XA_API_CMD_GET_MEMTABS_SIZE dev).2).1
                (codec_allocate_memory P
                  (uint32 (int32 (api_call P fn ApiCmd.XA_API_CMD_GET_MEMTABS_SIZE dev).1.out)) 4
                  (api_call P fn ApiCmd.XA_API_CMD_GET_MEMTABS_SIZE dev).2).2)).2)
          exact log_grows_trans (log_grows_trans hpre (init_memory_tables_log_grows P _)) h


/-- An available blob of a size between 1 and `2^31 - 1` that holds the
parameters `ps`, of positive sizes that sum to the blob size, is applied in
full when no status of the capability is fatal. -/
theorem apply_config_exact_run (P : Platform σ) (type : codec_cfg_type) (dev : comp_dev σ)
    (fn : ApiFn) (ps : List codec_param) (fuel : Nat)
    (hapi : dev.codec.cd.api = some fn)
    (havail : (select_cfg type dev.codec).avail = true)
    (hpk : packed_at (select_cfg type dev.codec).data 0 ps)
    (hpos : ∀ p ∈ ps, 0 < p.size)
    (hsum : total_size ps = (select_cfg type dev.codec).size)
    (hne : 0 < (select_cfg type dev.codec).size)
    (hmax : (select_cfg type dev.codec).size < 2147483648)
    (hcap : ∀ f s c v, P.LIB_IS_FATAL_ERROR (P.api f s c v).1.ret = false)
    (hfuel : ps.length ≤ fuel) :
    apply_config P fuel type dev = (Exit.ret 0, after_params P fn ps dev) := by
  rcases List.eq_nil_or_concat ps with h | ⟨front, z, h⟩
  · subst h; simp [total_size] at hsum; omega
  · rw [List.concat_eq_append] at h
    subst h
    have hz : 0 < z.size := hpos z (by simp)
    rw [total_size_append] at hsum
    have hzs : total_size [z] = z.size := by simp [total_size]
    rw [hzs] at hsum
    have hw := walk_finish P (select_cfg type dev.codec).data fn front z fuel
      ((select_cfg type dev.codec).size : Int) 0 dev hapi hpk (by omega) (by omega) (by omega)
      (by omega) (push_params_not_fatal P fn _ hcap _ _) (by simpa using hfuel)
    rw [apply_config_walks P fuel type dev havail hne hmax, hw]

/-- When the setup blob of `d1` is applied in full, the log of
`prepare_from_config` continues the log of `d1` with one set-config-parameter
call per parameter, in list order, before anything else. -/
theorem prepare_from_config_applies (P : Platform σ) (fuel : Nat) (d1 : comp_dev σ)
    (fn : ApiFn) (ps : List codec_param)
    (happly : apply_config P fuel codec_cfg_type.CODEC_CFG_SETUP d1
      = (Exit.ret 0, after_params P fn ps d1)) :
    log_grows (d1.log ++ param_calls fn d1.codec.cd.self ps)
      (prepare_from_config P fuel d1).2.log := by
  unfold prepare_from_config
  simp only [happly]
  rw [if_neg (by simp)]
  have hu := update_stream_params_log_grows P (set_s_cfg_avail false (after_params P fn ps d1))
  have hbase : (set_s_cfg_avail false (after_params P fn ps d1)).log
      = d1.log ++ param_calls fn d1.codec.cd.self ps := rfl
  rw [hbase] at hu
  revert hu
  generalize update_stream_params P (set_s_cfg_avail false (after_params P fn ps d1)) = u
  obtain ⟨eu, du⟩ := u
  intro hu
  cases eu with
  | hang => exact hu
  | fault => exact hu
  | ret ru =>
    simp only []
    split
    · exact hu
    · exact log_grows_trans hu (prepare_memory_log_grows P du)


/-- C15 as stated fails for a start in the PREPARED state: on the prepared
device `prepared_dev`, whose setup blob has 16 bytes and a set fresh flag,
`cadence_codec_prepare` succeeds and the flag is still set on return. -/
theorem prepare_keeps_flag_counterexample :
    prepared_dev.codec.s_cfg.size ≠ 0 ∧
    prepared_dev.codec.s_cfg.avail = true ∧
    (cadence_codec_prepare platform_ok 4 prepared_dev).1 = Exit.ret 0 ∧
    (cadence_codec_prepare platform_ok 4 prepared_dev).2.codec.s_cfg.avail = true := by
  refine ⟨?_, ?_, ?_, ?_⟩ <;> decide

/-- C15 (amended): for a setup blob of non-zero size and a start outside the
PREPARED state, `cadence_codec_prepare` started with the fresh flag unset
returns the same result and leaves the same log of capability calls,
allocations and frees as when started with the flag set. The stale blob is
applied again: when the pre-config init command returns no-error and the blob
holds the parameters `ps` (positive sizes that sum to the blob size, below
`2^31`) and no status of the capability is fatal, the log of the run with the
flag unset continues, right after the init command, with one
set-config-parameter call per parameter in list order. Whenever such a
prepare, started outside the PREPARED state, returns `0`, the flag of the
setup blob is false on return and its size and data are as they were. -/
theorem prepare_reuses_stale_config (P : Platform σ) (fuel : Nat) (dev : comp_dev σ)
    (hsize : dev.codec.s_cfg.size ≠ 0)
    (hstate : dev.codec.state ≠ codec_state.CODEC_PREPARED) :
    (cadence_codec_prepare P fuel (set_s_cfg_avail false dev)).1
      = (cadence_codec_prepare P fuel (set_s_cfg_avail true dev)).1 ∧
    (cadence_codec_prepare P fuel (set_s_cfg_avail false dev)).2.log
      = (cadence_codec_prepare P fuel (set_s_cfg_avail true dev)).2.log ∧
    (∀ flag, (cadence_codec_prepare P fuel (set_s_cfg_avail flag dev)).1 = Exit.ret 0 →
      (cadence_codec_prepare P fuel (set_s_cfg_avail flag dev)).2.codec.s_cfg.avail = false ∧
      (cadence_codec_prepare P fuel (set_s_cfg_avail flag dev)).2.codec.s_cfg.size
        = dev.codec.s_cfg.size ∧
      (cadence_codec_prepare P fuel (set_s_cfg_avail flag dev)).2.codec.s_cfg.data
        = dev.codec.s_cfg.data) ∧
    (∀ fn ps, dev.codec.cd.api = some fn →
      (api_call P fn pre_config_cmd dev).1.ret = LIB_NO_ERROR →
      packed_at dev.codec.s_cfg.data 0 ps →
      (∀ p ∈ ps, 0 < p.size) →
      total_size ps = dev.codec.s_cfg.size →
      dev.codec.s_cfg.size < 2147483648 →
      (∀ f s c v, P.LIB_IS_FATAL_ERROR (P.api f s c v).1.ret = false) →
      ps.length ≤ fuel →
      log_grows (dev.log ++
          Event.call fn dev.codec.cd.self pre_config_cmd :: param_calls fn dev.codec.cd.self ps)
        (cadence_codec_prepare P fuel (set_s_cfg_avail false dev)).2.log) := by
  have hboth : (cadence_codec_prepare P fuel (set_s_cfg_avail false dev)).1
        = (cadence_codec_prepare P fuel (set_s_cfg_avail true dev)).1 ∧
      (cadence_codec_prepare P fuel (set_s_cfg_avail false dev)).2.log
        = (cadence_codec_prepare P fuel (set_s_cfg_avail true dev)).2.log := by
    cases hapi : dev.codec.cd.api with
    | none =>
      have hF : (set_s_cfg_avail false dev).codec.cd.api = none := hapi
      have hT : (set_s_cfg_avail true dev).codec.cd.api = none := hapi
      have hsF : (set_s_cfg_avail false dev).codec.state ≠ codec_state.CODEC_PREPARED := hstate
      have hsT : (set_s_cfg_avail true dev).codec.state ≠ codec_state.CODEC_PREPARED := hstate
      unfold cadence_codec_prepare
      rw [if_neg hsF, if_neg hsT]
      simp only [API_CALL, hF, hT]
      exact ⟨trivial, rfl⟩
    | some fn =>
      rw [prepare_unfold P fuel (set_s_cfg_avail false dev) fn hstate hapi,
        prepare_unfold P fuel (set_s_cfg_avail true dev) fn hstate hapi]
      have hret : (api_call P fn pre_config_cmd (set_s_cfg_avail false dev)).1
          = (api_call P fn pre_config_cmd (set_s_cfg_avail true dev)).1 := rfl
      have hd : set_s_cfg_avail true (api_call P fn pre_config_cmd (set_s_cfg_avail false dev)).2
          = (api_call P fn pre_config_cmd (set_s_cfg_avail true dev)).2 := rfl
      have hsz : (set_s_cfg_avail false dev).codec.s_cfg.size = dev.codec.s_cfg.size := rfl
      have hsz2 : (set_s_cfg_avail true dev).codec.s_cfg.size = dev.codec.s_cfg.size := rfl
      have haF : (set_s_cfg_avail false dev).codec.s_cfg.avail = false := rfl
      have haT : (set_s_cfg_avail true dev).codec.s_cfg.avail = true := rfl
      rw [hret, hsz, hsz2, haF, haT, hd]
      by_cases hr : (api_call P fn pre_config_cmd (set_s_cfg_avail true dev)).1.ret
          ≠ LIB_NO_ERROR
      · rw [if_pos hr, if_pos hr]
        exact ⟨rfl, rfl⟩
      · rw [if_neg hr, if_neg hr]
        simp [hsize]
  refine ⟨hboth.1, hboth.2, ?_, ?_⟩
  · intro flag h0
    exact prepare_success_s_cfg P fuel (set_s_cfg_avail flag dev) hstate h0
  · intro fn ps hapi hpre hpk hpos hsum hmax hcap hfuel
    have hpreF : ¬ (api_call P fn pre_config_cmd (set_s_cfg_avail false dev)).1.ret
        ≠ LIB_NO_ERROR := fun h => h hpre
    have hcfg : ¬ ((set_s_cfg_avail false dev).codec.s_cfg.avail = false ∧
        (set_s_cfg_avail false dev).codec.s_cfg.size = 0) := fun h => hsize h.2
    have havF : (set_s_cfg_avail false dev).codec.s_cfg.avail = false := rfl
    rw [prepare_unfold P fuel (set_s_cfg_avail false dev) fn hstate hapi, if_neg hpreF,
      if_neg hcfg, if_pos havF]
    have happly := apply_config_exact_run P codec_cfg_type.CODEC_CFG_SETUP
      (set_s_cfg_avail true (api_call P fn pre_config_cmd (set_s_cfg_avail false dev)).2)
      fn ps fuel hapi rfl hpk hpos hsum (Nat.pos_of_ne_zero hsize) hmax hcap hfuel
    have h := prepare_from_config_applies P fuel _ fn ps happly
    have hlog : (set_s_cfg_avail true
        (api_call P fn pre_config_cmd (set_s_cfg_avail false dev)).2).log
        ++ param_calls fn (set_s_cfg_avail true
          (api_call P fn pre_config_cmd (set_s_cfg_avail false dev)).2).codec.cd.self ps
        = dev.log ++ Event.call fn dev.codec.cd.self pre_config_cmd
            :: param_calls fn dev.codec.cd.self ps := by
      simp [set_s_cfg_avail, api_call]
    rw [hlog] at h
    exact h

/-- Witness for C15: the setup blob `cfg_two` (16 bytes, two parameters) with
a library that negotiates an input and an output block. Started with the flag
unset, prepare returns `0` as with the flag set, the flag is false and the size
is 16 on return, and its log begins with the init command and the two
set-config-parameter calls of the blob. -/
theorem prepare_reuses_stale_config_witness :
    (cadence_codec_prepare (test_platform (api_tables [2, 3] none) (fun _ _ _ => true)) 2
        (set_s_cfg_avail false (ready_dev cfg_two no_cfg))).1
      = (cadence_codec_prepare (test_platform (api_tables [2, 3] none) (fun _ _ _ => true)) 2
        (set_s_cfg_avail true (ready_dev cfg_two no_cfg))).1 ∧
    (cadence_codec_prepare (test_platform (api_tables [2, 3] none) (fun _ _ _ => true)) 2
        (set_s_cfg_avail false (ready_dev cfg_two no_cfg))).1 = Exit.ret 0 ∧
    (cadence_codec_prepare (test_platform (api_tables [2, 3] none) (fun _ _ _ => true)) 2
        (set_s_cfg_avail false (ready_dev cfg_two no_cfg))).2.codec.s_cfg.avail = false ∧
    (cadence_codec_prepare (test_platform (api_tables [2, 3] none) (fun _ _ _ => true)) 2
        (set_s_cfg_avail false (ready_dev cfg_two no_cfg))).2.codec.s_cfg.size = 16 ∧
    log_grows ((ready_dev cfg_two no_cfg).log ++
        Event.call ApiFn.xa_mp3_dec (ready_dev cfg_two no_cfg).codec.cd.self pre_config_cmd ::
          param_calls ApiFn.xa_mp3_dec (ready_dev cfg_two no_cfg).codec.cd.self
            [⟨10, 8, [1]⟩, ⟨11, 8, [2]⟩])
      (cadence_codec_prepare (test_platform (api_tables [2, 3] none) (fun _ _ _ => true)) 2
        (set_s_cfg_avail false (ready_dev cfg_two no_cfg))).2.log :=
  have h := prepare_reuses_stale_config
    (test_platform (api_tables [2, 3] none) (fun _ _ _ => true)) 2
    (ready_dev cfg_two no_cfg) (by decide) (by decide)
  have h0 : (cadence_codec_prepare (test_platform (api_tables [2, 3] none) (fun _ _ _ => true)) 2
      (set_s_cfg_avail false (ready_dev cfg_two no_cfg))).1 = Exit.ret 0 := by decide
  ⟨h.1, h0, (h.2.2.1 false h0).1, (h.2.2.1 false h0).2.1,
    h.2.2.2 ApiFn.xa_mp3_dec [⟨10, 8, [1]⟩, ⟨11, 8, [2]⟩] rfl rfl ⟨rfl, rfl, trivial⟩
      (by decide) (by decide) (by decide)
      (fun f s c v => by cases c <;> simp [test_platform, api_tables])
      (by decide)⟩

end Cadence
